import Mathlib

/-!
# Otter Browser: context-menu assembly and toolbar composition

A shallow embedding of `src/ui/WebWidget.cpp` (`WebWidget::showContextMenu`) and
`src/ui/ToolBarWidget.cpp` (`ToolBarWidget::setup`, `toolBarModified`,
`updateBookmarks`, `createWidget`), followed by theorems about them.

A menu is modelled by the list of its entries as `QMenu::actions()` holds them: an
action that is added again moves to the end (`QWidget::addAction`), separators and
submenus are appended. A toolbar is modelled by the items that `addSeparator` and
`addWidget` appended and that `clear` or `removeAction` have not removed.
-/

namespace Otter

/-! ## Context menu (`WebWidget.cpp`) -/

/-- Action identifiers named in `WebWidget.cpp` (enumerators of `Action`). -/
inductive Action
  | GoBackAction | GoForwardAction | RewindAction | FastForwardAction
  | ReloadAction | ReloadTimeAction | StopScheduledPageRefreshAction
  | AddBookmarkAction | CopyAddressAction | PrintAction
  | CreateSearchAction | InspectElementAction | ViewSourceAction | ValidateAction
  | OpenFrameInCurrentTabAction | OpenFrameInNewTabAction | OpenFrameInNewTabBackgroundAction
  | ViewFrameSourceAction | ReloadFrameAction | CopyFrameLinkToClipboardAction
  | ContentBlockingAction | WebsitePreferencesAction | FullScreenAction
  | UndoAction | RedoAction | CutAction | CopyAction | PasteAction | DeleteAction
  | SelectAllAction | ClearAllAction | CheckSpellingAction
  | SearchAction | SearchMenuAction | OpenSelectionAsLinkAction
  | OpenLinkInCurrentTabAction | CopyLinkToClipboardAction
  | OpenLinkAction | OpenLinkInNewTabAction | OpenLinkInNewTabBackgroundAction
  | OpenLinkInNewWindowAction | OpenLinkInNewWindowBackgroundAction
  | BookmarkLinkAction | SaveLinkToDiskAction | SaveLinkToDownloadsAction
  | OpenImageInNewTabAction | ReloadImageAction | CopyImageUrlToClipboardAction
  | SaveImageToDiskAction | CopyImageToClipboardAction | ImagePropertiesAction
  | CopyMediaUrlToClipboardAction | SaveMediaToDiskAction
  | ToggleMediaPlayPauseAction | ToggleMediaMuteAction | ToggleMediaLoopAction
  | ToggleMediaControlsAction
  deriving DecidableEq, Repr

/-- An entry of the "Frame" submenu: an action or a separator. -/
inductive SubMenuEntry
  | action (a : Action)
  | separator
  deriving DecidableEq, Repr

/-- An entry of the top-level context menu. Both `getAction(id)` and
`ActionsManager::getAction(id, this)` resolve an identifier to an action; the
entry records the identifier. -/
inductive MenuEntry
  | action (a : Action)
  | separator
  | menu (title : String) (entries : List SubMenuEntry)
  deriving DecidableEq, Repr

/-- The local `QMenu menu`: its entries, in the order of `actions()`. -/
abbrev QMenu := List MenuEntry

/-- `QWidget::removeAction(action)`: the action is taken out of the widget's list of
actions. -/
def QMenu.removeAction (menu : QMenu) (a : Action) : QMenu :=
  menu.filter (fun entry => entry != MenuEntry.action a)

/-- `menu.addAction(getAction(a))`. `getAction` gives the one `QAction` of the
identifier, and `QWidget::addAction` first removes an action that the widget already
holds and then appends it: an action added a second time moves to the end, it is not
shown twice. -/
def QMenu.addAction (menu : QMenu) (a : Action) : QMenu :=
  let menu := if menu.contains (MenuEntry.action a) then menu.removeAction a else menu
  menu ++ [MenuEntry.action a]

/-- `menu.addSeparator()`: every call creates a separator of its own. -/
def QMenu.addSeparator (menu : QMenu) : QMenu := menu ++ [MenuEntry.separator]

/-- `menu.addMenu(sub)` for a submenu with the given title. -/
def QMenu.addMenu (menu : QMenu) (title : String) (sub : List SubMenuEntry) : QMenu :=
  menu ++ [MenuEntry.menu title sub]

/-- The enumerators of `MenuFlag`. They are declared in `WebWidget.h`, which is not
among the sources, so their values are a parameter of the embedding. The spec calls the
flags "a bitmask of applicable menu categories": no two enumerators share a bit
(`disjoint`). -/
structure MenuFlagValues where
  StandardMenu : Nat
  LinkMenu : Nat
  MailMenu : Nat
  ImageMenu : Nat
  MediaMenu : Nat
  SelectionMenu : Nat
  EditMenu : Nat
  FrameMenu : Nat
  FormMenu : Nat
  disjoint : List.Pairwise (fun a b => a &&& b = 0)
    [StandardMenu, LinkMenu, MailMenu, ImageMenu, MediaMenu, SelectionMenu, EditMenu,
     FrameMenu, FormMenu]

/-- Modelled from the spec: the values of the `MenuFlag` enumerators (`WebWidget.h`)
are missing; the spec calls the flags "a bitmask of applicable menu categories", so
this assignment gives every category a bit of its own. It is used to evaluate the
menu on concrete flags values. -/
def menuFlagBits : MenuFlagValues where
  StandardMenu := 1
  LinkMenu := 2
  MailMenu := 4
  ImageMenu := 8
  MediaMenu := 16
  SelectionMenu := 32
  EditMenu := 64
  FrameMenu := 128
  FormMenu := 256
  disjoint := by decide

/-- The C++ condition `flags & X`: the bitwise and is non-zero. -/
def testFlag (flags X : Nat) : Bool := (flags &&& X) != 0

/-- The "Frame" submenu built at `WebWidget.cpp` lines 206-214. -/
def frameMenu : List SubMenuEntry :=
  [ SubMenuEntry.action Action.OpenFrameInCurrentTabAction,
    SubMenuEntry.action Action.OpenFrameInNewTabAction,
    SubMenuEntry.action Action.OpenFrameInNewTabBackgroundAction,
    SubMenuEntry.separator,
    SubMenuEntry.action Action.ViewFrameSourceAction,
    SubMenuEntry.action Action.ReloadFrameAction,
    SubMenuEntry.action Action.CopyFrameLinkToClipboardAction ]

/-- Body of `if (flags & StandardMenu)`, lines 180-223. -/
def standardBlock (F : MenuFlagValues) (flags : Nat) (menu : QMenu) : QMenu :=
  let menu := menu.addAction Action.GoBackAction
  let menu := menu.addAction Action.GoForwardAction
  let menu := menu.addAction Action.RewindAction
  let menu := menu.addAction Action.FastForwardAction
  let menu := menu.addSeparator
  let menu := menu.addAction Action.ReloadAction
  let menu := menu.addAction Action.ReloadTimeAction
  let menu := menu.addSeparator
  let menu := menu.addAction Action.AddBookmarkAction
  let menu := menu.addAction Action.CopyAddressAction
  let menu := menu.addAction Action.PrintAction
  let menu := menu.addSeparator
  let menu :=
    if testFlag flags F.FormMenu then
      let menu := menu.addAction Action.CreateSearchAction
      menu.addSeparator
    else menu
  let menu := menu.addAction Action.InspectElementAction
  let menu := menu.addAction Action.ViewSourceAction
  let menu := menu.addAction Action.ValidateAction
  let menu := menu.addSeparator
  let menu :=
    if testFlag flags F.FrameMenu then
      let menu := menu.addMenu "Frame" frameMenu
      menu.addSeparator
    else menu
  let menu := menu.addAction Action.ContentBlockingAction
  let menu := menu.addAction Action.WebsitePreferencesAction
  let menu := menu.addSeparator
  menu.addAction Action.FullScreenAction

/-- Body of `if (flags & EditMenu)`, lines 229-254. -/
def editBlock (F : MenuFlagValues) (flags : Nat) (menu : QMenu) : QMenu :=
  let menu := menu.addAction Action.UndoAction
  let menu := menu.addAction Action.RedoAction
  let menu := menu.addSeparator
  let menu := menu.addAction Action.CutAction
  let menu := menu.addAction Action.CopyAction
  let menu := menu.addAction Action.PasteAction
  let menu := menu.addAction Action.DeleteAction
  let menu := menu.addSeparator
  let menu := menu.addAction Action.SelectAllAction
  let menu := menu.addAction Action.ClearAllAction
  let menu := menu.addSeparator
  let menu :=
    if testFlag flags F.FormMenu then
      let menu := menu.addAction Action.CreateSearchAction
      menu.addSeparator
    else menu
  let menu :=
    if flags = F.EditMenu ∨ flags = (F.EditMenu ||| F.FormMenu) then
      let menu := menu.addAction Action.InspectElementAction
      menu.addSeparator
    else menu
  let menu := menu.addAction Action.CheckSpellingAction
  menu.addSeparator

/-- Body of `if (flags & SelectionMenu)`, lines 259-270. -/
def selectionBlock (F : MenuFlagValues) (flags : Nat) (menu : QMenu) : QMenu :=
  let menu := menu.addAction Action.SearchAction
  let menu := menu.addAction Action.SearchMenuAction
  let menu := menu.addSeparator
  let menu :=
    if !(testFlag flags F.EditMenu) then
      let menu := menu.addAction Action.CopyAction
      menu.addSeparator
    else menu
  let menu := menu.addAction Action.OpenSelectionAsLinkAction
  menu.addSeparator

/-- Body of `if (flags & MailMenu)`, lines 275-284. -/
def mailBlock (F : MenuFlagValues) (flags : Nat) (menu : QMenu) : QMenu :=
  let menu := menu.addAction Action.OpenLinkInCurrentTabAction
  let menu := menu.addSeparator
  let menu := menu.addAction Action.CopyLinkToClipboardAction
  let menu :=
    if !(testFlag flags F.ImageMenu) then
      menu.addAction Action.InspectElementAction
    else menu
  menu.addSeparator

/-- Body of `else if (flags & LinkMenu)`, lines 288-306. -/
def linkBlock (F : MenuFlagValues) (flags : Nat) (menu : QMenu) : QMenu :=
  let menu := menu.addAction Action.OpenLinkAction
  let menu := menu.addAction Action.OpenLinkInNewTabAction
  let menu := menu.addAction Action.OpenLinkInNewTabBackgroundAction
  let menu := menu.addSeparator
  let menu := menu.addAction Action.OpenLinkInNewWindowAction
  let menu := menu.addAction Action.OpenLinkInNewWindowBackgroundAction
  let menu := menu.addSeparator
  let menu := menu.addAction Action.BookmarkLinkAction
  let menu := menu.addAction Action.CopyLinkToClipboardAction
  let menu := menu.addSeparator
  let menu := menu.addAction Action.SaveLinkToDiskAction
  let menu := menu.addAction Action.SaveLinkToDownloadsAction
  let menu :=
    if !(testFlag flags F.ImageMenu) then
      menu.addAction Action.InspectElementAction
    else menu
  menu.addSeparator

/-- Body of `if (flags & ImageMenu)`, lines 311-320. -/
def imageBlock (menu : QMenu) : QMenu :=
  let menu := menu.addAction Action.OpenImageInNewTabAction
  let menu := menu.addAction Action.ReloadImageAction
  let menu := menu.addAction Action.CopyImageUrlToClipboardAction
  let menu := menu.addSeparator
  let menu := menu.addAction Action.SaveImageToDiskAction
  let menu := menu.addAction Action.CopyImageToClipboardAction
  let menu := menu.addSeparator
  let menu := menu.addAction Action.InspectElementAction
  let menu := menu.addAction Action.ImagePropertiesAction
  menu.addSeparator

/-- Body of `if (flags & MediaMenu)`, lines 325-334. -/
def mediaBlock (menu : QMenu) : QMenu :=
  let menu := menu.addAction Action.CopyMediaUrlToClipboardAction
  let menu := menu.addAction Action.SaveMediaToDiskAction
  let menu := menu.addSeparator
  let menu := menu.addAction Action.ToggleMediaPlayPauseAction
  let menu := menu.addAction Action.ToggleMediaMuteAction
  let menu := menu.addAction Action.ToggleMediaLoopAction
  let menu := menu.addAction Action.ToggleMediaControlsAction
  let menu := menu.addSeparator
  let menu := menu.addAction Action.InspectElementAction
  menu.addSeparator

/-- `WebWidget::showContextMenu(position, flags)`, lines 174-339: the menu on which
`exec` is called. The position only places the popup and is not modelled. -/
def showContextMenu (F : MenuFlagValues) (flags : Nat) : QMenu :=
  let menu : QMenu := []
  if testFlag flags F.StandardMenu then
    standardBlock F flags menu
  else
    let menu := if testFlag flags F.EditMenu then editBlock F flags menu else menu
    let menu := if testFlag flags F.SelectionMenu then selectionBlock F flags menu else menu
    let menu :=
      if testFlag flags F.MailMenu then mailBlock F flags menu
      else if testFlag flags F.LinkMenu then linkBlock F flags menu
      else menu
    let menu := if testFlag flags F.ImageMenu then imageBlock menu else menu
    let menu := if testFlag flags F.MediaMenu then mediaBlock menu else menu
    menu

/-- The entries a block appends to an empty menu: the category's section. -/
def editSection (F : MenuFlagValues) (flags : Nat) : QMenu := editBlock F flags []

/-- The selection category's section. -/
def selectionSection (F : MenuFlagValues) (flags : Nat) : QMenu := selectionBlock F flags []

/-- The mail category's section. -/
def mailSection (F : MenuFlagValues) (flags : Nat) : QMenu := mailBlock F flags []

/-- The link category's section. -/
def linkSection (F : MenuFlagValues) (flags : Nat) : QMenu := linkBlock F flags []

/-- The image category's section. -/
def imageSection : QMenu := imageBlock []

/-- The media category's section. -/
def mediaSection : QMenu := mediaBlock []

/-- Whether an entry of an earlier part of the menu stays where it is when the entries
`later` are added after it: an action that `later` adds again is moved there. -/
def keeps (later : QMenu) : MenuEntry → Bool
  | MenuEntry.action a => decide (MenuEntry.action a ∉ later)
  | _ => true

/-- The entries of `part` that stay in place when `later` is added after them. -/
def remaining (part later : QMenu) : QMenu := part.filter (keeps later)

/-- The menu `menu` after the entries `added` have been added to it, one by one. -/
def merged (menu added : QMenu) : QMenu := remaining menu added ++ added

/-- Number of top-level entries of the menu that are the given action. -/
def occurrences (a : Action) (menu : QMenu) : Nat := menu.count (MenuEntry.action a)

/-! ## Toolbar (`ToolBarWidget.cpp`) -/

/-- `QString::startsWith`. -/
def startsWith (s p : String) : Bool := p.data.isPrefixOf s.data

/-- `QString::endsWith`. -/
def endsWith (s p : String) : Bool := p.data.isSuffixOf s.data

/-- `QString::mid(position)`: the text from `position` to the end. -/
def mid (s : String) (position : Nat) : String := String.mk (s.data.drop position)

/-- `QString::left(n)`: the first `n` characters. -/
def left (s : String) (n : Nat) : String := String.mk (s.data.take n)

/-- `QString::toULongLong()` in base 10, on the texts the toolbar code passes to it: the
number written by a non-empty run of decimal digits when it fits 64 bits, and 0 (Qt's
result for a failed conversion) otherwise. -/
def toULongLong (s : String) : Nat :=
  if s.data ≠ [] ∧ s.data.all Char.isDigit = true then
    let value := s.data.foldl (fun n c => 10 * n + (c.toNat - 48)) 0
    if value < 2 ^ 64 then value else 0
  else 0

/-- A `BookmarksItem*` that is not NULL, identified by its address. -/
structure BookmarksItem where
  address : Nat
  deriving DecidableEq, Repr

/-- `ToolBarActionDefinition`: one entry of a toolbar definition. -/
structure ToolBarActionDefinition where
  action : String
  deriving DecidableEq, Repr

/-- `ToolBarDefinition`, the fields read by `ToolBarWidget`. -/
structure ToolBarDefinition where
  visibility : Int
  buttonStyle : Int
  iconSize : Int
  bookmarksPath : String
  actions : List ToolBarActionDefinition
  deriving DecidableEq, Repr

/-- The collaborators `ToolBarWidget.cpp` consults and whose code is not among the
sources: `ToolBarsManager` (the stored definitions and two enumerators),
`ActionsManager` (the identifier registry and two enumerators of `Action`) and
`BookmarksManager` with its model. They are parameters of the embedding. -/
structure Environment where
  /-- `ToolBarsManager::TabBar`. -/
  TabBar : Int
  /-- The enumerator `AlwaysHiddenToolBar`. -/
  AlwaysHiddenToolBar : Int
  /-- `ToolBarsManager::getToolBarDefinition(identifier)`. -/
  getToolBarDefinition : Int → ToolBarDefinition
  /-- `ActionsManager::getActionIdentifier(name)`. -/
  getActionIdentifier : String → Int
  /-- `Action::GoBackAction` as an integer. -/
  GoBackAction : Int
  /-- `Action::GoForwardAction` as an integer. -/
  GoForwardAction : Int
  /-- `BookmarksManager::getBookmark(identifier)`; `none` is NULL. -/
  getBookmark : Nat → Option BookmarksItem
  /-- `BookmarksManager::getModel()->getItem(path)`; `none` is NULL. -/
  getItem : String → Option BookmarksItem
  /-- For an item, `dynamic_cast<BookmarksItem*>(item->child(i))` for `i` from 0 to
  `item->rowCount() - 1`; `none` is a failed cast. -/
  children : BookmarksItem → List (Option BookmarksItem)
  /-- Whether the item's `TypeRole` data is `BookmarksModel::SeparatorBookmark`. -/
  isSeparatorBookmark : BookmarksItem → Bool

/-- The widgets a toolbar can hold. All constructors but `tabBar` are what
`createWidget` constructs (its `window` and parent arguments are not recorded);
`tabBar address` is the tab bar widget that the main window already owns, known by
its address. Whether the main window later adopts a `TabBarWidget` constructed by
`createWidget` is decided by code outside these sources; here a constructed widget is
never the widget `MainWindow::getTabBar()` returns. -/
inductive Widget
  | spacer
  | AddressWidget
  | ClosedWindowsWidget
  | MenuButtonWidget
  | PanelChooserWidget
  | SearchWidget
  | StatusMessageWidget
  | TabBarWidget
  | ZoomWidget
  | BookmarkWidget (bookmark : BookmarksItem)
  | GoBackActionWidget
  | GoForwardActionWidget
  | ActionWidget (identifier : Int)
  | tabBar (address : Nat)
  deriving DecidableEq, Repr

/-- An item of the toolbar (`actions()`): what `addSeparator()` or `addWidget(w)`
appended; `widget none` is `addWidget(NULL)`. -/
inductive ToolBarItem
  | separator
  | widget (w : Option Widget)
  deriving DecidableEq, Repr

/-- `MainWindow`, as far as the toolbar reads it: `getTabBar()` is the address of its
tab bar widget, or `none` for NULL. -/
structure MainWindow where
  getTabBar : Option Nat
  deriving DecidableEq, Repr

/-- The state of a `ToolBarWidget`. `m_mainWindow` is `MainWindow::findMainWindow` of
the toolbar, `actions` the item sequence, `modelModifiedConnections` the number of
connections of `BookmarksManager::modelModified()` to `updateBookmarks()`, and
`toolBarModifiedConnections` those of `ToolBarsManager::toolBarModified(int)` to
`toolBarModified(int)`. -/
structure ToolBarWidget where
  m_mainWindow : Option MainWindow
  m_identifier : Int
  actions : List ToolBarItem
  visible : Bool
  toolButtonStyle : Int
  iconSize : Int
  modelModifiedConnections : Nat
  toolBarModifiedConnections : Nat
  deriving DecidableEq, Repr

/-- `QToolBar::clear()`. -/
def ToolBarWidget.clear (self : ToolBarWidget) : ToolBarWidget := { self with actions := [] }

/-- `QToolBar::addSeparator()`. -/
def ToolBarWidget.addSeparator (self : ToolBarWidget) : ToolBarWidget :=
  { self with actions := self.actions ++ [ToolBarItem.separator] }

/-- `QToolBar::addWidget(widget)`. -/
def ToolBarWidget.addWidget (self : ToolBarWidget) (w : Option Widget) : ToolBarWidget :=
  { self with actions := self.actions ++ [ToolBarItem.widget w] }

/-- `removeAction(actions().at(i))`. -/
def ToolBarWidget.removeActionAt (self : ToolBarWidget) (i : Nat) : ToolBarWidget :=
  { self with actions := self.actions.eraseIdx i }

/-- `ToolBarWidget::getIdentifier()`, lines 385-388. -/
def ToolBarWidget.getIdentifier (self : ToolBarWidget) : Int := self.m_identifier

/-- The test `widgetForAction(action) != tabBar` of line 131. Every item of a toolbar
has a widget of its own (a separator, a button or the widget given to `addWidget`), so
the two pointers are equal only when the item holds the main window's tab bar. -/
def widgetIsNotTabBar (item : ToolBarItem) (tabBar : Option Nat) : Bool :=
  match item, tabBar with
  | ToolBarItem.widget (some (Widget.tabBar a)), some b => a != b
  | _, _ => true

/-- The bookmark lookup of `createWidget`, lines 316-318: for a name that starts with
"bookmarks:" the item found by the model (name starting "bookmarks:/") or by
`getBookmark`; `none` is NULL, also when the name does not start with "bookmarks:". -/
def lookupBookmark (env : Environment) (action : String) : Option BookmarksItem :=
  if startsWith action "bookmarks:" then
    (if startsWith action "bookmarks:/" then env.getItem (mid action 11)
     else env.getBookmark (toULongLong (mid action 11)))
  else none

/-- `ToolBarWidget::createWidget(definition, window, toolBar)`, lines 245-347; `none`
is NULL. `MainWindow::findMainWindow(toolBar)` is the toolbar's `m_mainWindow`. -/
def createWidget (env : Environment) (definition : ToolBarActionDefinition)
    (toolBar : Option ToolBarWidget) : Option Widget :=
  if definition.action = "spacer" then some Widget.spacer
  else if definition.action = "AddressWidget" then some Widget.AddressWidget
  else if definition.action = "ClosedWindowsWidget" then some Widget.ClosedWindowsWidget
  else if definition.action = "MenuButtonWidget" then some Widget.MenuButtonWidget
  else if definition.action = "PanelChooserWidget" then some Widget.PanelChooserWidget
  else if definition.action = "SearchWidget" then some Widget.SearchWidget
  else if definition.action = "StatusMessageWidget" then some Widget.StatusMessageWidget
  else if definition.action = "TabBarWidget" then
    match toolBar with
    | none => none
    | some toolBar =>
      if toolBar.getIdentifier ≠ env.TabBar then none
      else
        match toolBar.m_mainWindow with
        | none => none
        | some mainWindow =>
          if mainWindow.getTabBar.isSome then none else some Widget.TabBarWidget
  else if definition.action = "ZoomWidget" then some Widget.ZoomWidget
  else
    match lookupBookmark env definition.action with
    | some bookmark => some (Widget.BookmarkWidget bookmark)
    | none =>
      if endsWith definition.action "Action" then
        let identifier :=
          env.getActionIdentifier (left definition.action (definition.action.length - 6))
        if identifier ≥ 0 then
          if identifier = env.GoBackAction then some Widget.GoBackActionWidget
          else if identifier = env.GoForwardAction then some Widget.GoForwardActionWidget
          else some (Widget.ActionWidget identifier)
        else none
      else none

/-- The loop over `item->child(i)` of `updateBookmarks`, lines 222-237. -/
def addBookmarks (env : Environment) :
    List (Option BookmarksItem) → ToolBarWidget → ToolBarWidget
  | [], self => self
  | none :: rest, self => addBookmarks env rest self
  | some bookmark :: rest, self =>
    if env.isSeparatorBookmark bookmark then addBookmarks env rest self.addSeparator
    else addBookmarks env rest (self.addWidget (some (Widget.BookmarkWidget bookmark)))

/-- `ToolBarWidget::updateBookmarks()`, lines 209-238. -/
def updateBookmarks (env : Environment) (self : ToolBarWidget) : ToolBarWidget :=
  let definition := env.getToolBarDefinition self.m_identifier
  let self := self.clear
  let item : Option BookmarksItem :=
    if startsWith definition.bookmarksPath "#" then
      env.getBookmark (toULongLong (mid definition.bookmarksPath 1))
    else env.getItem definition.bookmarksPath
  match item with
  | none => self
  | some item => addBookmarks env (env.children item) self

/-- The loop of lines 129-135, `for (i = n - 1; i >= 0; --i)`, with `n` the number of
iterations still to run: every action whose widget is not `tabBar` is removed. -/
def removeOtherActions (tabBar : Option Nat) : Nat → ToolBarWidget → ToolBarWidget
  | 0, self => self
  | i + 1, self =>
    match self.actions.get? i with
    | none => removeOtherActions tabBar i self
    | some item =>
      if widgetIsNotTabBar item tabBar then removeOtherActions tabBar i (self.removeActionAt i)
      else removeOtherActions tabBar i self

/-- The loop over `definition.actions` of `setup`, lines 158-175. -/
def addActions (env : Environment) (tabBar : Option Nat) :
    List ToolBarActionDefinition → ToolBarWidget → ToolBarWidget
  | [], self => self
  | entry :: rest, self =>
    if entry.action = "separator" then addActions env tabBar rest self.addSeparator
    else if self.m_identifier = env.TabBar ∧ tabBar.isSome ∧ entry.action = "TabBarWidget" then
      addActions env tabBar rest (self.addWidget (tabBar.map Widget.tabBar))
    else addActions env tabBar rest (self.addWidget (createWidget env entry (some self)))

/-- `ToolBarWidget::setup()`, lines 120-176. -/
def setup (env : Environment) (self : ToolBarWidget) : ToolBarWidget :=
  let tabBar : Option Nat :=
    if self.m_identifier = env.TabBar then
      (match self.m_mainWindow with
       | some mainWindow => mainWindow.getTabBar
       | none => none)
    else none
  let definition := env.getToolBarDefinition self.m_identifier
  let self := { self with visible := definition.visibility != env.AlwaysHiddenToolBar }
  let self :=
    if self.m_identifier = env.TabBar then removeOtherActions tabBar self.actions.length self
    else self.clear
  let self := { self with toolButtonStyle := definition.buttonStyle }
  let self :=
    if definition.iconSize > 0 then { self with iconSize := definition.iconSize } else self
  if definition.bookmarksPath.data ≠ [] then
    let self := updateBookmarks env self
    { self with modelModifiedConnections := self.modelModifiedConnections + 1 }
  else addActions env tabBar definition.actions self

/-- `ToolBarWidget::toolBarModified(identifier)`, lines 178-184. -/
def toolBarModified (env : Environment) (self : ToolBarWidget) (identifier : Int) :
    ToolBarWidget :=
  if identifier = self.m_identifier then setup env self else self

/-- The constructor `ToolBarWidget::ToolBarWidget(identifier, window, parent)`, lines
45-69, from a toolbar that holds nothing yet: for `identifier >= 0` it runs `setup()`
and subscribes to `ToolBarsManager::toolBarModified(int)`. -/
def ToolBarWidget.create (env : Environment) (identifier : Int)
    (mainWindow : Option MainWindow) : ToolBarWidget :=
  let self : ToolBarWidget :=
    { m_mainWindow := mainWindow, m_identifier := identifier, actions := [],
      visible := true, toolButtonStyle := 0, iconSize := 0,
      modelModifiedConnections := 0, toolBarModifiedConnections := 0 }
  if identifier ≥ 0 then
    let self := setup env self
    { self with toolBarModifiedConnections := self.toolBarModifiedConnections + 1 }
  else self

/-- A signal delivered by the toolkit to the slots connected to it. -/
inductive Notification
  | toolBarModified (identifier : Int)
  | modelModified
  deriving DecidableEq, Repr

/-- Delivery of a signal: every connection calls its slot once. -/
def deliver (env : Environment) (self : ToolBarWidget) : Notification → ToolBarWidget
  | Notification.toolBarModified identifier =>
    Nat.iterate (fun tb => toolBarModified env tb identifier) self.toolBarModifiedConnections self
  | Notification.modelModified =>
    Nat.iterate (updateBookmarks env) self.modelModifiedConnections self

/-- A history of notifications; each comes with the collaborators' state (stored
definitions, bookmarks) at the time it is delivered. -/
def run (self : ToolBarWidget) : List (Environment × Notification) → ToolBarWidget
  | [] => self
  | (env, n) :: rest => run (deliver env self n) rest

/-- A concrete state of the collaborators, for evaluating the toolbar code: the tab bar
toolbar has identifier 1, every toolbar has the stored definition `definition`, the
registry knows the actions "GoBack" (0), "GoForward" (1) and "Reload" (2), and the
bookmarks model has a root "/" with a bookmark 7, a child that is no bookmark item and
a separator 8. -/
def exampleEnvironment (definition : ToolBarDefinition) : Environment where
  TabBar := 1
  AlwaysHiddenToolBar := 2
  getToolBarDefinition := fun _ => definition
  getActionIdentifier := fun name =>
    if name = "GoBack" then 0 else if name = "GoForward" then 1
    else if name = "Reload" then 2 else -1
  GoBackAction := 0
  GoForwardAction := 1
  getBookmark := fun identifier => if identifier = 7 then some ⟨7⟩ else none
  getItem := fun path => if path = "/" then some ⟨0⟩ else none
  children := fun item => if item.address = 0 then [some ⟨7⟩, none, some ⟨8⟩] else []
  isSeparatorBookmark := fun item => item.address == 8

/-- A stored definition that shows the bookmarks folder "/". -/
def bookmarksDefinition : ToolBarDefinition where
  visibility := 0
  buttonStyle := 0
  iconSize := 16
  bookmarksPath := "/"
  actions := []

/-- A stored definition with a plain list of entries. -/
def plainDefinition (names : List String) : ToolBarDefinition where
  visibility := 0
  buttonStyle := 0
  iconSize := 16
  bookmarksPath := ""
  actions := names.map ToolBarActionDefinition.mk

/-! ## Reload time (`WebWidget.cpp`) -/

/-- An action of the reload-time menu: its text, its `data()` (`none` for the invalid
`QVariant` of an action that was given no data), whether it is a separator, and its
checkable and checked flags. -/
structure ReloadTimeAction where
  text : String
  data : Option Int
  isSeparator : Bool
  checkable : Bool
  checked : Bool
  deriving DecidableEq, Repr

/-- `menu->addAction(text)->setData(data)`. -/
def addReloadTimeAction (menu : List ReloadTimeAction) (text : String) (data : Int) :
    List ReloadTimeAction :=
  menu ++ [{ text := text, data := some data, isSeparator := false, checkable := false,
             checked := false }]

/-- `menu->addSeparator()`: the separator is an action of the menu too. -/
def addReloadTimeSeparator (menu : List ReloadTimeAction) : List ReloadTimeAction :=
  menu ++ [{ text := "", data := none, isSeparator := true, checkable := false,
             checked := false }]

/-- `WebWidget::getReloadTimeMenu()`, lines 470-499, when `m_reloadTimeMenu` is still
NULL: the actions of the menu it builds; the loop of lines 487-492 makes every action
checkable. -/
def getReloadTimeMenu : List ReloadTimeAction :=
  let menu : List ReloadTimeAction := []
  let menu := addReloadTimeAction menu "30 Minutes" 1800
  let menu := addReloadTimeAction menu "1 Hour" 3600
  let menu := addReloadTimeAction menu "2 Hours" 7200
  let menu := addReloadTimeAction menu "6 Hours" 21600
  let menu := addReloadTimeAction menu "Never" 0
  let menu := addReloadTimeAction menu "Custom..." (-2)
  let menu := addReloadTimeSeparator menu
  let menu := addReloadTimeAction menu "Page Default" (-1)
  menu.map (fun action => { action with checkable := true })

/-- The index given to `m_reloadTimeMenu->actions().at(...)` by the `switch` of
`WebWidget::reloadTimeMenuAboutToShow()`, lines 83-113. -/
def reloadTimeIndex (reloadTime : Int) : Nat :=
  if reloadTime = 1800 then 0
  else if reloadTime = 3600 then 1
  else if reloadTime = 7200 then 2
  else if reloadTime = 21600 then 3
  else if reloadTime = 0 then 4
  else if reloadTime = -1 then 7
  else 5

/-- `actions().at(i)->setChecked(true)`. -/
def setChecked (menu : List ReloadTimeAction) (i : Nat) : List ReloadTimeAction :=
  match menu.get? i with
  | some action => menu.set i { action with checked := true }
  | none => menu

/-- `WebWidget::reloadTimeMenuAboutToShow()`, lines 81-114, for the value
`getReloadTime()` returns. -/
def reloadTimeMenuAboutToShow (menu : List ReloadTimeAction) (reloadTime : Int) :
    List ReloadTimeAction :=
  setChecked menu (reloadTimeIndex reloadTime)

/-- A C++ `int` result: the integer reduced to the 32-bit two's-complement range. -/
def toInt32 (x : Int) : Int := (x + 2 ^ 31) % 2 ^ 32 - 2 ^ 31

/-- The reload state of a `WebWidget`: `m_reloadTime`, `m_reloadTimer`, the timers of
the object that are running (identifier and interval in milliseconds, oldest first) and
the actions given to `triggerAction`, in call order. -/
structure WebWidget where
  m_reloadTime : Int
  m_reloadTimer : Int
  timers : List (Int × Int)
  triggered : List Action
  deriving DecidableEq, Repr

/-- The state the constructor leaves, lines 35-45: `m_reloadTime(-1)`,
`m_reloadTimer(0)`, no timer. -/
def WebWidget.initial : WebWidget :=
  { m_reloadTime := -1, m_reloadTimer := 0, timers := [], triggered := [] }

/-- A timer identifier that no running timer has: one more than the largest in use,
and at least 1 (identifiers of started timers are never 0). -/
def freshTimerId (timers : List (Int × Int)) : Int :=
  timers.foldl (fun m t => max m (t.1 + 1)) 1

/-- `QObject::startTimer(interval)`: Qt starts no timer and returns 0 for a negative
interval, and otherwise starts a timer and returns its identifier. -/
def WebWidget.startTimer (self : WebWidget) (interval : Int) : WebWidget × Int :=
  if interval < 0 then (self, 0)
  else
    let id := freshTimerId self.timers
    ({ self with timers := self.timers ++ [(id, interval)] }, id)

/-- `QObject::killTimer(id)`. -/
def WebWidget.killTimer (self : WebWidget) (id : Int) : WebWidget :=
  { self with timers := self.timers.filter (fun t => t.1 != id) }

/-- `triggerAction(action)`, implemented by the backends: the call is recorded. -/
def WebWidget.triggerAction (self : WebWidget) (action : Action) : WebWidget :=
  { self with triggered := self.triggered ++ [action] }

/-- `WebWidget::getReloadTime()`, lines 549-552. -/
def WebWidget.getReloadTime (self : WebWidget) : Int := self.m_reloadTime

/-- `WebWidget::timerEvent(event)`, lines 47-60, for `event->timerId() = timerId` and
the value `isLoading()` returns (it is implemented by the backends). -/
def WebWidget.timerEvent (self : WebWidget) (timerId : Int) (isLoading : Bool) : WebWidget :=
  if timerId = self.m_reloadTimer then
    let self := self.killTimer self.m_reloadTimer
    let self := { self with m_reloadTimer := 0 }
    if !isLoading then self.triggerAction Action.ReloadAction else self
  else self

/-- `WebWidget::startReloadTimer()`, lines 62-73. -/
def WebWidget.startReloadTimer (self : WebWidget) : WebWidget :=
  if self.m_reloadTime ≥ 0 then
    let self := self.triggerAction Action.StopScheduledPageRefreshAction
    if self.m_reloadTime > 0 then
      let started := self.startTimer (toInt32 (self.m_reloadTime * 1000))
      { started.1 with m_reloadTimer := started.2 }
    else self
  else self

/-- `WebWidget::setReloadTime(int time)`, lines 388-411. -/
def WebWidget.setReloadTime (self : WebWidget) (time : Int) : WebWidget :=
  if time ≠ self.m_reloadTime then
    let self := { self with m_reloadTime := time }
    let self :=
      if self.m_reloadTimer ≠ 0 then
        let self := self.killTimer self.m_reloadTimer
        { self with m_reloadTimer := 0 }
      else self
    if time ≥ 0 then
      let self := self.triggerAction Action.StopScheduledPageRefreshAction
      if time > 0 then
        let started := self.startTimer (toInt32 (time * 1000))
        { started.1 with m_reloadTimer := started.2 }
      else self
    else self
  else self

/-- A call on the reload state of a `WebWidget`. -/
inductive ReloadCall
  | setReloadTime (time : Int)
  | startReloadTimer
  | timerEvent (timerId : Int) (isLoading : Bool)
  deriving DecidableEq, Repr

/-- One call. -/
def WebWidget.call (self : WebWidget) : ReloadCall → WebWidget
  | ReloadCall.setReloadTime time => self.setReloadTime time
  | ReloadCall.startReloadTimer => self.startReloadTimer
  | ReloadCall.timerEvent timerId isLoading => self.timerEvent timerId isLoading

/-- A sequence of calls, in order. -/
def WebWidget.calls (self : WebWidget) (cs : List ReloadCall) : WebWidget :=
  cs.foldl WebWidget.call self

/-- The top-level menu has no two separators next to each other. -/
abbrev noAdjacentSeparators (menu : QMenu) : Prop :=
  List.Chain' (fun a b => ¬ (a = MenuEntry.separator ∧ b = MenuEntry.separator)) menu

/-- Boolean check for two separators next to each other. -/
def hasAdjacentSeparators : QMenu → Bool
  | [] => false
  | [_] => false
  | a :: b :: rest =>
    (a == MenuEntry.separator && b == MenuEntry.separator) || hasAdjacentSeparators (b :: rest)

/-- The shape every section of the menu has: empty, or starting with an entry that is
no separator, without adjacent separators, and ending with a separator. -/
abbrev wellSeparated (menu : QMenu) : Prop :=
  menu = [] ∨ (menu.head? ≠ some MenuEntry.separator ∧ noAdjacentSeparators menu ∧
    menu.getLast? = some MenuEntry.separator)

/-! ## Theorems: context menu -/

theorem addAction_eq (menu : QMenu) (a : Action) :
    menu.addAction a =
      menu.filter (fun entry => entry != MenuEntry.action a) ++ [MenuEntry.action a] := by
  unfold QMenu.addAction QMenu.removeAction
  cases h : menu.contains (MenuEntry.action a)
  · have hnot : MenuEntry.action a ∉ menu := by
      intro hmem
      have : menu.contains (MenuEntry.action a) = true := by simpa using hmem
      rw [h] at this
      cases this
    have hfilter : menu.filter (fun entry => entry != MenuEntry.action a) = menu := by
      rw [List.filter_eq_self]
      intro entry hEntry
      simp only [bne_iff_ne, ne_eq]
      rintro rfl
      exact hnot hEntry
    simp only [Bool.false_eq_true, if_false, hfilter]
  · simp only [if_true]

theorem keeps_nil (entry : MenuEntry) : keeps [] entry = true := by
  cases entry <;> simp [keeps]

theorem keeps_append (l1 l2 : QMenu) (entry : MenuEntry) :
    keeps (l1 ++ l2) entry = (keeps l1 entry && keeps l2 entry) := by
  cases entry <;> simp [keeps, not_or]

theorem remaining_nil_right (part : QMenu) : remaining part [] = part := by
  simp [remaining, List.filter_eq_self, keeps_nil]

theorem remaining_nil_left (later : QMenu) : remaining [] later = [] := rfl

theorem remaining_append (a b later : QMenu) :
    remaining (a ++ b) later = remaining a later ++ remaining b later := by
  simp [remaining]

theorem remaining_remaining (part l1 l2 : QMenu) :
    remaining (remaining part l1) l2 = remaining part (l1 ++ l2) := by
  simp only [remaining, List.filter_filter]
  apply List.filter_congr
  intro entry _
  rw [keeps_append, Bool.and_comm]

theorem merged_nil (menu : QMenu) : merged menu [] = menu := by
  simp [merged, remaining_nil_right]

theorem nil_merged (added : QMenu) : merged [] added = added := by
  simp [merged, remaining_nil_left]

/-- Adding an action to a menu that was built by adding `added` to `menu` is the same
as adding it to `added` first. -/
theorem merged_addAction (menu added : QMenu) (a : Action) :
    (merged menu added).addAction a = merged menu (added.addAction a) := by
  simp only [addAction_eq, merged, remaining, List.filter_append, List.filter_filter,
    List.append_assoc]
  congr 1
  apply List.filter_congr
  intro entry _
  cases entry with
  | action b =>
    by_cases hb : b = a
    · simp [keeps, hb]
    · simp [keeps, hb]
  | separator => simp [keeps]
  | menu title entries => simp [keeps]

theorem merged_addSeparator (menu added : QMenu) :
    (merged menu added).addSeparator = merged menu added.addSeparator := by
  simp only [QMenu.addSeparator, merged, remaining, List.append_assoc]
  congr 1
  apply List.filter_congr
  intro entry _
  cases entry <;> simp [keeps]

theorem merged_ite (c : Prop) [Decidable c] (menu s1 s2 : QMenu) :
    (if c then merged menu s1 else merged menu s2) = merged menu (if c then s1 else s2) := by
  split_ifs <;> rfl

theorem editBlock_merged (F : MenuFlagValues) (flags : Nat) (menu added : QMenu) :
    editBlock F flags (merged menu added) = merged menu (editBlock F flags added) := by
  simp only [editBlock, merged_addAction, merged_addSeparator, merged_ite]

theorem selectionBlock_merged (F : MenuFlagValues) (flags : Nat) (menu added : QMenu) :
    selectionBlock F flags (merged menu added) = merged menu (selectionBlock F flags added) := by
  simp only [selectionBlock, merged_addAction, merged_addSeparator, merged_ite]

theorem mailBlock_merged (F : MenuFlagValues) (flags : Nat) (menu added : QMenu) :
    mailBlock F flags (merged menu added) = merged menu (mailBlock F flags added) := by
  simp only [mailBlock, merged_addAction, merged_addSeparator, merged_ite]

theorem linkBlock_merged (F : MenuFlagValues) (flags : Nat) (menu added : QMenu) :
    linkBlock F flags (merged menu added) = merged menu (linkBlock F flags added) := by
  simp only [linkBlock, merged_addAction, merged_addSeparator, merged_ite]

theorem imageBlock_merged (menu added : QMenu) :
    imageBlock (merged menu added) = merged menu (imageBlock added) := by
  simp only [imageBlock, merged_addAction, merged_addSeparator]

theorem mediaBlock_merged (menu added : QMenu) :
    mediaBlock (merged menu added) = merged menu (mediaBlock added) := by
  simp only [mediaBlock, merged_addAction, merged_addSeparator]

/-- A block run on a menu keeps the entries of the menu that it does not add again and
appends its own section. -/
theorem editBlock_eq (F : MenuFlagValues) (flags : Nat) (menu : QMenu) :
    editBlock F flags menu = merged menu (editSection F flags) := by
  have h := editBlock_merged F flags menu []
  rwa [merged_nil] at h

theorem selectionBlock_eq (F : MenuFlagValues) (flags : Nat) (menu : QMenu) :
    selectionBlock F flags menu = merged menu (selectionSection F flags) := by
  have h := selectionBlock_merged F flags menu []
  rwa [merged_nil] at h

theorem mailBlock_eq (F : MenuFlagValues) (flags : Nat) (menu : QMenu) :
    mailBlock F flags menu = merged menu (mailSection F flags) := by
  have h := mailBlock_merged F flags menu []
  rwa [merged_nil] at h

theorem linkBlock_eq (F : MenuFlagValues) (flags : Nat) (menu : QMenu) :
    linkBlock F flags menu = merged menu (linkSection F flags) := by
  have h := linkBlock_merged F flags menu []
  rwa [merged_nil] at h

theorem imageBlock_eq (menu : QMenu) : imageBlock menu = merged menu imageSection := by
  have h := imageBlock_merged menu []
  rwa [merged_nil] at h

theorem mediaBlock_eq (menu : QMenu) : mediaBlock menu = merged menu mediaSection := by
  have h := mediaBlock_merged menu []
  rwa [merged_nil] at h

/-- With `StandardMenu` clear the menu results from adding to the empty menu, in this
order, the edit, selection, mail or link, image and media sections, each when its flag
is set. -/
theorem showContextMenu_chain (F : MenuFlagValues) (flags : Nat)
    (hS : testFlag flags F.StandardMenu = false) :
    showContextMenu F flags =
      merged (merged (merged (merged (merged []
        (if testFlag flags F.EditMenu then editSection F flags else []))
        (if testFlag flags F.SelectionMenu then selectionSection F flags else []))
        (if testFlag flags F.MailMenu then mailSection F flags
          else if testFlag flags F.LinkMenu then linkSection F flags else []))
        (if testFlag flags F.ImageMenu then imageSection else []))
        (if testFlag flags F.MediaMenu then mediaSection else []) := by
  simp only [showContextMenu, hS, Bool.false_eq_true, if_false, editBlock_eq,
    selectionBlock_eq, mailBlock_eq, linkBlock_eq, imageBlock_eq, mediaBlock_eq]
  generalize editSection F flags = e
  generalize selectionSection F flags = s
  generalize mailSection F flags = m
  generalize linkSection F flags = l
  generalize imageSection = i
  generalize mediaSection = d
  cases testFlag flags F.EditMenu <;> cases testFlag flags F.SelectionMenu <;>
    cases testFlag flags F.MailMenu <;> cases testFlag flags F.LinkMenu <;>
    cases testFlag flags F.ImageMenu <;> cases testFlag flags F.MediaMenu <;>
    simp only [Bool.false_eq_true, if_false, if_true, merged_nil]

/-- With `StandardMenu` clear the menu is the concatenation of five parts, one per
category in the order edit, selection, mail or link, image, media: each part is the
section of its category, when the flag is set, less the actions that a later part adds
again. -/
theorem showContextMenu_parts (F : MenuFlagValues) (flags : Nat)
    (hS : testFlag flags F.StandardMenu = false) :
    showContextMenu F flags =
      remaining (if testFlag flags F.EditMenu then editSection F flags else [])
        ((if testFlag flags F.SelectionMenu then selectionSection F flags else []) ++
         (if testFlag flags F.MailMenu then mailSection F flags
           else if testFlag flags F.LinkMenu then linkSection F flags else []) ++
         (if testFlag flags F.ImageMenu then imageSection else []) ++
         (if testFlag flags F.MediaMenu then mediaSection else [])) ++
      remaining (if testFlag flags F.SelectionMenu then selectionSection F flags else [])
        ((if testFlag flags F.MailMenu then mailSection F flags
           else if testFlag flags F.LinkMenu then linkSection F flags else []) ++
         (if testFlag flags F.ImageMenu then imageSection else []) ++
         (if testFlag flags F.MediaMenu then mediaSection else [])) ++
      remaining (if testFlag flags F.MailMenu then mailSection F flags
          else if testFlag flags F.LinkMenu then linkSection F flags else [])
        ((if testFlag flags F.ImageMenu then imageSection else []) ++
         (if testFlag flags F.MediaMenu then mediaSection else [])) ++
      remaining (if testFlag flags F.ImageMenu then imageSection else [])
        (if testFlag flags F.MediaMenu then mediaSection else []) ++
      (if testFlag flags F.MediaMenu then mediaSection else []) := by
  rw [showContextMenu_chain F flags hS]
  simp only [merged, remaining_nil_left, List.nil_append, remaining_append,
    remaining_remaining, List.append_assoc]

theorem testFlag_of_and_eq_zero (a b : Nat) (h : a &&& b = 0) : testFlag a b = false := by
  simp [testFlag, h]

theorem testFlag_or_of_and_eq_zero (a b c : Nat) (ha : a &&& c = 0) (hb : b &&& c = 0) :
    testFlag (a ||| b) c = false := by
  have h : (a ||| b) &&& c = 0 := by
    rw [Nat.and_comm, Nat.and_or_distrib_left, Nat.and_comm c a, Nat.and_comm c b, ha, hb]
    rfl
  simp [testFlag, h]

/-- When the flags value is `EditMenu` or `EditMenu | FormMenu`, the mail, link, image
and media bits are clear: no two enumerators share a bit. -/
theorem editOnly_flags (F : MenuFlagValues) (flags : Nat)
    (h : flags = F.EditMenu ∨ flags = (F.EditMenu ||| F.FormMenu)) :
    testFlag flags F.MailMenu = false ∧ testFlag flags F.LinkMenu = false ∧
    testFlag flags F.ImageMenu = false ∧ testFlag flags F.MediaMenu = false := by
  have hd := F.disjoint
  simp only [List.pairwise_cons, List.mem_cons, List.mem_singleton, forall_eq_or_imp,
    forall_eq, List.not_mem_nil, false_implies, implies_true, List.Pairwise.nil, and_true]
    at hd
  obtain ⟨-, ⟨-, -, -, -, hLE, -, hLF⟩, ⟨-, -, -, hME, -, hMF⟩, ⟨-, -, hIE, -, hIF⟩,
    ⟨-, hDE, -, hDF⟩, -⟩ := hd
  rw [Nat.and_comm] at hLE hLF hME hMF hIE hIF hDE hDF
  rcases h with rfl | rfl
  · exact ⟨testFlag_of_and_eq_zero _ _ hME, testFlag_of_and_eq_zero _ _ hLE,
      testFlag_of_and_eq_zero _ _ hIE, testFlag_of_and_eq_zero _ _ hDE⟩
  · exact ⟨testFlag_or_of_and_eq_zero _ _ _ hME hMF, testFlag_or_of_and_eq_zero _ _ _ hLE hLF,
      testFlag_or_of_and_eq_zero _ _ _ hIE hIF, testFlag_or_of_and_eq_zero _ _ _ hDE hDF⟩

/-- The edit section loses nothing to the later parts: whenever it holds
`InspectElementAction` no later category is present, and its other actions are added by
no later block. -/
theorem remaining_editSection (F : MenuFlagValues) (flags : Nat) :
    remaining (if testFlag flags F.EditMenu then editSection F flags else [])
      ((if testFlag flags F.SelectionMenu then selectionSection F flags else []) ++
       (if testFlag flags F.MailMenu then mailSection F flags
         else if testFlag flags F.LinkMenu then linkSection F flags else []) ++
       (if testFlag flags F.ImageMenu then imageSection else []) ++
       (if testFlag flags F.MediaMenu then mediaSection else [])) =
      (if testFlag flags F.EditMenu then editSection F flags else []) := by
  by_cases hq : flags = F.EditMenu ∨ flags = (F.EditMenu ||| F.FormMenu)
  · obtain ⟨hM, hL, hI, hD⟩ := editOnly_flags F flags hq
    simp only [hM, hL, hI, hD, Bool.false_eq_true, if_false, List.append_nil, editSection,
      editBlock, selectionSection, selectionBlock, if_pos hq]
    cases testFlag flags F.EditMenu <;> cases testFlag flags F.FormMenu <;>
      cases testFlag flags F.SelectionMenu <;> decide
  · simp only [editSection, editBlock, selectionSection, selectionBlock, mailSection,
      mailBlock, linkSection, linkBlock, if_neg hq]
    cases testFlag flags F.EditMenu <;> cases testFlag flags F.FormMenu <;>
      cases testFlag flags F.SelectionMenu <;> cases testFlag flags F.MailMenu <;>
      cases testFlag flags F.LinkMenu <;> cases testFlag flags F.ImageMenu <;>
      cases testFlag flags F.MediaMenu <;> decide

/-- The selection section loses nothing to the later parts. -/
theorem remaining_selectionSection (F : MenuFlagValues) (flags : Nat) :
    remaining (if testFlag flags F.SelectionMenu then selectionSection F flags else [])
      ((if testFlag flags F.MailMenu then mailSection F flags
         else if testFlag flags F.LinkMenu then linkSection F flags else []) ++
       (if testFlag flags F.ImageMenu then imageSection else []) ++
       (if testFlag flags F.MediaMenu then mediaSection else [])) =
      (if testFlag flags F.SelectionMenu then selectionSection F flags else []) := by
  simp only [selectionSection, selectionBlock, mailSection, mailBlock, linkSection, linkBlock]
  cases testFlag flags F.EditMenu <;>
    cases testFlag flags F.SelectionMenu <;> cases testFlag flags F.MailMenu <;>
    cases testFlag flags F.LinkMenu <;> cases testFlag flags F.ImageMenu <;>
    cases testFlag flags F.MediaMenu <;> decide

/-- With `StandardMenu` clear the menu is the edit section, the selection section, the
mail (or else link) section less the actions added again by the image and media
sections, the image section less the actions added again by the media section, and the
media section, each present when its flag is set. -/
theorem showContextMenu_sections (F : MenuFlagValues) (flags : Nat)
    (hS : testFlag flags F.StandardMenu = false) :
    showContextMenu F flags =
      (if testFlag flags F.EditMenu then editSection F flags else []) ++
      (if testFlag flags F.SelectionMenu then selectionSection F flags else []) ++
      remaining (if testFlag flags F.MailMenu then mailSection F flags
          else if testFlag flags F.LinkMenu then linkSection F flags else [])
        ((if testFlag flags F.ImageMenu then imageSection else []) ++
         (if testFlag flags F.MediaMenu then mediaSection else [])) ++
      remaining (if testFlag flags F.ImageMenu then imageSection else [])
        (if testFlag flags F.MediaMenu then mediaSection else []) ++
      (if testFlag flags F.MediaMenu then mediaSection else []) := by
  rw [showContextMenu_parts F flags hS, remaining_editSection, remaining_selectionSection]

theorem testFlag_zero (X : Nat) : testFlag 0 X = false := by
  simp [testFlag]

theorem editSection_ne_nil (F : MenuFlagValues) (flags : Nat) : editSection F flags ≠ [] := by
  simp only [editSection, editBlock]
  split_ifs <;> decide

theorem selectionSection_ne_nil (F : MenuFlagValues) (flags : Nat) :
    selectionSection F flags ≠ [] := by
  simp only [selectionSection, selectionBlock]
  split_ifs <;> decide

/-- The part of the menu that the mail or link category contributes: the section, and
without its `InspectElementAction` when the image or the media section comes after it
(they add the action again). -/
theorem linkPart_eq (F : MenuFlagValues) (flags : Nat) :
    remaining (if testFlag flags F.MailMenu then mailSection F flags
        else if testFlag flags F.LinkMenu then linkSection F flags else [])
      ((if testFlag flags F.ImageMenu then imageSection else []) ++
       (if testFlag flags F.MediaMenu then mediaSection else [])) =
      if testFlag flags F.ImageMenu = true ∨ testFlag flags F.MediaMenu = true then
        (if testFlag flags F.MailMenu then mailSection F flags
          else if testFlag flags F.LinkMenu then linkSection F flags else []).filter
          (fun entry => entry != MenuEntry.action Action.InspectElementAction)
      else (if testFlag flags F.MailMenu then mailSection F flags
        else if testFlag flags F.LinkMenu then linkSection F flags else []) := by
  simp only [mailSection, mailBlock, linkSection, linkBlock]
  cases testFlag flags F.MailMenu <;> cases testFlag flags F.LinkMenu <;>
    cases testFlag flags F.ImageMenu <;> cases testFlag flags F.MediaMenu <;> decide

/-- The part of the menu that the image category contributes: the section, and without
its `InspectElementAction` when the media section comes after it. -/
theorem imagePart_eq (F : MenuFlagValues) (flags : Nat) :
    remaining (if testFlag flags F.ImageMenu then imageSection else [])
      (if testFlag flags F.MediaMenu then mediaSection else []) =
      if testFlag flags F.MediaMenu = true then
        (if testFlag flags F.ImageMenu then imageSection else []).filter
          (fun entry => entry != MenuEntry.action Action.InspectElementAction)
      else (if testFlag flags F.ImageMenu then imageSection else []) := by
  cases testFlag flags F.ImageMenu <;> cases testFlag flags F.MediaMenu <;> decide

theorem linkPart_ne_nil (F : MenuFlagValues) (flags : Nat) :
    remaining (if testFlag flags F.MailMenu then mailSection F flags
        else if testFlag flags F.LinkMenu then linkSection F flags else [])
      ((if testFlag flags F.ImageMenu then imageSection else []) ++
       (if testFlag flags F.MediaMenu then mediaSection else [])) ≠ [] ↔
      (testFlag flags F.MailMenu = true ∨ testFlag flags F.LinkMenu = true) := by
  simp only [mailSection, mailBlock, linkSection, linkBlock]
  cases testFlag flags F.MailMenu <;> cases testFlag flags F.LinkMenu <;>
    cases testFlag flags F.ImageMenu <;> cases testFlag flags F.MediaMenu <;> decide

theorem imagePart_ne_nil (F : MenuFlagValues) (flags : Nat) :
    remaining (if testFlag flags F.ImageMenu then imageSection else [])
      (if testFlag flags F.MediaMenu then mediaSection else []) ≠ [] ↔
      testFlag flags F.ImageMenu = true := by
  cases testFlag flags F.ImageMenu <;> cases testFlag flags F.MediaMenu <;> decide

/-- C1 (counterexample): at `flags = EditMenu | LinkMenu | MediaMenu` (64 + 2 + 16), with
`StandardMenu` clear, the link section built by the link block holds
`InspectElementAction`, but the menu is not the edit section followed by the link
section and the media section: the media block adds the action again, so the menu shows
it only in the media section, behind the media entries. -/
theorem showContextMenu_moves_inspectElement :
    testFlag 82 menuFlagBits.StandardMenu = false ∧
    MenuEntry.action Action.InspectElementAction ∈ linkSection menuFlagBits 82 ∧
    showContextMenu menuFlagBits 82 ≠
      editSection menuFlagBits 82 ++ linkSection menuFlagBits 82 ++ mediaSection ∧
    showContextMenu menuFlagBits 82 =
      editSection menuFlagBits 82 ++
      (linkSection menuFlagBits 82).filter
        (fun entry => entry != MenuEntry.action Action.InspectElementAction) ++
      mediaSection := by
  decide

/-- C1 (amended): with `StandardMenu` clear, the menu is the concatenation, in this
order, of the edit part (present iff `EditMenu` is set), the selection part (iff
`SelectionMenu`), the mail part (iff `MailMenu`) or otherwise the link part (iff
`LinkMenu`), the image part (iff `ImageMenu`) and the media part (iff `MediaMenu`). The
edit, selection and media parts are the sections of their categories; the mail or link
part is its section without `InspectElementAction` when the image or media part
follows, and the image part is its section without `InspectElementAction` when the
media part follows. `flags = 0` yields the empty menu. -/
theorem showContextMenu_section_order (F : MenuFlagValues) (flags : Nat)
    (hS : testFlag flags F.StandardMenu = false) :
    showContextMenu F flags =
        (if testFlag flags F.EditMenu then editSection F flags else []) ++
        (if testFlag flags F.SelectionMenu then selectionSection F flags else []) ++
        (if testFlag flags F.ImageMenu = true ∨ testFlag flags F.MediaMenu = true then
          (if testFlag flags F.MailMenu then mailSection F flags
            else if testFlag flags F.LinkMenu then linkSection F flags else []).filter
            (fun entry => entry != MenuEntry.action Action.InspectElementAction)
        else (if testFlag flags F.MailMenu then mailSection F flags
          else if testFlag flags F.LinkMenu then linkSection F flags else [])) ++
        (if testFlag flags F.MediaMenu = true then
          (if testFlag flags F.ImageMenu then imageSection else []).filter
            (fun entry => entry != MenuEntry.action Action.InspectElementAction)
        else (if testFlag flags F.ImageMenu then imageSection else [])) ++
        (if testFlag flags F.MediaMenu then mediaSection else [])
      ∧ editSection F flags ≠ [] ∧ selectionSection F flags ≠ []
      ∧ ((if testFlag flags F.ImageMenu = true ∨ testFlag flags F.MediaMenu = true then
          (if testFlag flags F.MailMenu then mailSection F flags
            else if testFlag flags F.LinkMenu then linkSection F flags else []).filter
            (fun entry => entry != MenuEntry.action Action.InspectElementAction)
        else (if testFlag flags F.MailMenu then mailSection F flags
          else if testFlag flags F.LinkMenu then linkSection F flags else [])) ≠ [] ↔
          (testFlag flags F.MailMenu = true ∨ testFlag flags F.LinkMenu = true))
      ∧ ((if testFlag flags F.MediaMenu = true then
          (if testFlag flags F.ImageMenu then imageSection else []).filter
            (fun entry => entry != MenuEntry.action Action.InspectElementAction)
        else (if testFlag flags F.ImageMenu then imageSection else [])) ≠ [] ↔
          testFlag flags F.ImageMenu = true)
      ∧ mediaSection ≠ []
      ∧ showContextMenu F 0 = [] := by
  refine ⟨?_, editSection_ne_nil F flags, selectionSection_ne_nil F flags, ?_, ?_,
    by decide, ?_⟩
  · rw [showContextMenu_sections F flags hS, linkPart_eq, imagePart_eq]
  · rw [← linkPart_eq]; exact linkPart_ne_nil F flags
  · rw [← imagePart_eq]; exact imagePart_ne_nil F flags
  · rw [showContextMenu_sections F 0 (testFlag_zero _)]
    simp [testFlag_zero, remaining_nil_left]

/-- Witness for C1 (amended) at `flags = EditMenu | LinkMenu | MediaMenu` (64 + 2 + 16). -/
theorem showContextMenu_section_order_witness :
    testFlag 82 menuFlagBits.StandardMenu = false ∧
    showContextMenu menuFlagBits 82 =
      editSection menuFlagBits 82 ++
      (linkSection menuFlagBits 82).filter
        (fun entry => entry != MenuEntry.action Action.InspectElementAction) ++
      mediaSection :=
  ⟨by decide, by
    have h := (showContextMenu_section_order menuFlagBits 82 (by decide)).1
    rw [h]; decide⟩

theorem occurrences_append (a : Action) (xs ys : QMenu) :
    occurrences a (xs ++ ys) = occurrences a xs + occurrences a ys := by
  simp [occurrences, List.count_append]

theorem occurrences_remaining (a : Action) (part later : QMenu) :
    occurrences a (remaining part later) =
      if MenuEntry.action a ∈ later then 0 else occurrences a part := by
  by_cases h : MenuEntry.action a ∈ later
  · rw [if_pos h]
    simp [occurrences, remaining, List.count_eq_zero, List.mem_filter, keeps, h]
  · rw [if_neg h]
    simp only [occurrences, remaining]
    apply List.count_filter
    simp [keeps, h]

theorem occurrences_merged (a : Action) (menu added : QMenu)
    (hm : occurrences a menu ≤ 1) (ha : occurrences a added ≤ 1) :
    occurrences a (merged menu added) ≤ 1 := by
  rw [merged, occurrences_append, occurrences_remaining]
  by_cases h : MenuEntry.action a ∈ added
  · rw [if_pos h]; omega
  · rw [if_neg h]
    have h0 : occurrences a added = 0 := by
      simpa [occurrences, List.count_eq_zero] using h
    omega

theorem occurrences_standardBlock (a : Action) (F : MenuFlagValues) (flags : Nat) :
    occurrences a (standardBlock F flags []) ≤ 1 := by
  simp only [standardBlock]
  cases testFlag flags F.FormMenu <;> cases testFlag flags F.FrameMenu <;>
    cases a <;> decide

theorem occurrences_editSection (a : Action) (F : MenuFlagValues) (flags : Nat) :
    occurrences a (editSection F flags) ≤ 1 := by
  simp only [editSection, editBlock]
  split_ifs <;> cases a <;> decide

theorem occurrences_selectionSection (a : Action) (F : MenuFlagValues) (flags : Nat) :
    occurrences a (selectionSection F flags) ≤ 1 := by
  simp only [selectionSection, selectionBlock]
  split_ifs <;> cases a <;> decide

theorem occurrences_mailSection (a : Action) (F : MenuFlagValues) (flags : Nat) :
    occurrences a (mailSection F flags) ≤ 1 := by
  simp only [mailSection, mailBlock]
  split_ifs <;> cases a <;> decide

theorem occurrences_linkSection (a : Action) (F : MenuFlagValues) (flags : Nat) :
    occurrences a (linkSection F flags) ≤ 1 := by
  simp only [linkSection, linkBlock]
  split_ifs <;> cases a <;> decide

theorem occurrences_imageSection (a : Action) : occurrences a imageSection ≤ 1 := by
  cases a <;> decide

theorem occurrences_mediaSection (a : Action) : occurrences a mediaSection ≤ 1 := by
  cases a <;> decide

/-- No action occurs twice in the menu, whatever the flags value. -/
theorem occurrences_showContextMenu (a : Action) (F : MenuFlagValues) (flags : Nat) :
    occurrences a (showContextMenu F flags) ≤ 1 := by
  have h0 : occurrences a ([] : QMenu) ≤ 1 := by simp [occurrences]
  cases hS : testFlag flags F.StandardMenu
  · rw [showContextMenu_chain F flags hS]
    refine occurrences_merged a _ _ (occurrences_merged a _ _ (occurrences_merged a _ _
      (occurrences_merged a _ _ (occurrences_merged a _ _ h0 ?_) ?_) ?_) ?_) ?_
    · split_ifs
      · exact occurrences_editSection a F flags
      · exact h0
    · split_ifs
      · exact occurrences_selectionSection a F flags
      · exact h0
    · split_ifs
      · exact occurrences_mailSection a F flags
      · exact occurrences_linkSection a F flags
      · exact h0
    · split_ifs
      · exact occurrences_imageSection a
      · exact h0
    · split_ifs
      · exact occurrences_mediaSection a
      · exact h0
  · simp only [showContextMenu, hS, if_true]
    exact occurrences_standardBlock a F flags

theorem mailSection_image (F : MenuFlagValues) (flags : Nat)
    (hI : testFlag flags F.ImageMenu = true) :
    mailSection F flags =
      [MenuEntry.action Action.OpenLinkInCurrentTabAction, MenuEntry.separator,
       MenuEntry.action Action.CopyLinkToClipboardAction, MenuEntry.separator] := by
  simp only [mailSection, mailBlock, hI]
  decide

theorem mailSection_no_image (F : MenuFlagValues) (flags : Nat)
    (hI : testFlag flags F.ImageMenu = false) :
    mailSection F flags =
      [MenuEntry.action Action.OpenLinkInCurrentTabAction, MenuEntry.separator,
       MenuEntry.action Action.CopyLinkToClipboardAction,
       MenuEntry.action Action.InspectElementAction, MenuEntry.separator] := by
  simp only [mailSection, mailBlock, hI]
  decide

theorem linkSection_image (F : MenuFlagValues) (flags : Nat)
    (hI : testFlag flags F.ImageMenu = true) :
    linkSection F flags =
      [MenuEntry.action Action.OpenLinkAction, MenuEntry.action Action.OpenLinkInNewTabAction,
       MenuEntry.action Action.OpenLinkInNewTabBackgroundAction, MenuEntry.separator,
       MenuEntry.action Action.OpenLinkInNewWindowAction,
       MenuEntry.action Action.OpenLinkInNewWindowBackgroundAction, MenuEntry.separator,
       MenuEntry.action Action.BookmarkLinkAction,
       MenuEntry.action Action.CopyLinkToClipboardAction, MenuEntry.separator,
       MenuEntry.action Action.SaveLinkToDiskAction,
       MenuEntry.action Action.SaveLinkToDownloadsAction, MenuEntry.separator] := by
  simp only [linkSection, linkBlock, hI]
  decide

theorem linkSection_no_image (F : MenuFlagValues) (flags : Nat)
    (hI : testFlag flags F.ImageMenu = false) :
    linkSection F flags =
      [MenuEntry.action Action.OpenLinkAction, MenuEntry.action Action.OpenLinkInNewTabAction,
       MenuEntry.action Action.OpenLinkInNewTabBackgroundAction, MenuEntry.separator,
       MenuEntry.action Action.OpenLinkInNewWindowAction,
       MenuEntry.action Action.OpenLinkInNewWindowBackgroundAction, MenuEntry.separator,
       MenuEntry.action Action.BookmarkLinkAction,
       MenuEntry.action Action.CopyLinkToClipboardAction, MenuEntry.separator,
       MenuEntry.action Action.SaveLinkToDiskAction,
       MenuEntry.action Action.SaveLinkToDownloadsAction,
       MenuEntry.action Action.InspectElementAction, MenuEntry.separator] := by
  simp only [linkSection, linkBlock, hI]
  decide

/-- C3 (counterexample): with `MediaMenu` set the media block adds
`InspectElementAction` after the image and link blocks, and the menu shows it only
there. At `flags = LinkMenu | ImageMenu | MediaMenu` (2 + 8 + 16) the entry right before
`ImagePropertiesAction` is a separator and `InspectElementAction` is nowhere followed by
`ImagePropertiesAction`. At `flags = LinkMenu | MediaMenu` (2 + 16), with `ImageMenu`
clear, the link entries end with SaveLinkToDownloads, separator, not with
InspectElement, separator. -/
theorem inspectElement_moves_to_mediaSection :
    testFlag 26 menuFlagBits.StandardMenu = false ∧
    testFlag 26 menuFlagBits.ImageMenu = true ∧ testFlag 26 menuFlagBits.LinkMenu = true ∧
    (MenuEntry.action Action.InspectElementAction,
      MenuEntry.action Action.ImagePropertiesAction) ∉
      (showContextMenu menuFlagBits 26).zip (showContextMenu menuFlagBits 26).tail ∧
    (MenuEntry.separator, MenuEntry.action Action.ImagePropertiesAction) ∈
      (showContextMenu menuFlagBits 26).zip (showContextMenu menuFlagBits 26).tail ∧
    showContextMenu menuFlagBits 26 =
      linkSection menuFlagBits 26 ++
      imageSection.filter (fun entry => entry != MenuEntry.action Action.InspectElementAction)
      ++ mediaSection ∧
    testFlag 18 menuFlagBits.StandardMenu = false ∧
    testFlag 18 menuFlagBits.ImageMenu = false ∧ testFlag 18 menuFlagBits.LinkMenu = true ∧
    showContextMenu menuFlagBits 18 =
      [MenuEntry.action Action.OpenLinkAction, MenuEntry.action Action.OpenLinkInNewTabAction,
       MenuEntry.action Action.OpenLinkInNewTabBackgroundAction, MenuEntry.separator,
       MenuEntry.action Action.OpenLinkInNewWindowAction,
       MenuEntry.action Action.OpenLinkInNewWindowBackgroundAction, MenuEntry.separator,
       MenuEntry.action Action.BookmarkLinkAction,
       MenuEntry.action Action.CopyLinkToClipboardAction, MenuEntry.separator,
       MenuEntry.action Action.SaveLinkToDiskAction,
       MenuEntry.action Action.SaveLinkToDownloadsAction, MenuEntry.separator] ++
      mediaSection := by
  decide

/-- C3 (amended): with `StandardMenu` clear and `LinkMenu` or `MailMenu` set, the menu is
`before ++ linkPart ++ after`, where `linkPart` is what the menu keeps of the mail
section (if `MailMenu` is set) or else of the link section. When `ImageMenu` is set,
`linkPart` is the whole section and has no `InspectElementAction`; if moreover
`MediaMenu` is clear, the image section follows it directly and contains
`InspectElementAction` exactly once, immediately before `ImagePropertiesAction`. When
`ImageMenu` and `MediaMenu` are both clear, `linkPart` is the whole section and ends
with `InspectElementAction` followed by a separator. -/
theorem linkSection_inspectElement (F : MenuFlagValues) (flags : Nat)
    (hS : testFlag flags F.StandardMenu = false)
    (hL : testFlag flags F.LinkMenu = true ∨ testFlag flags F.MailMenu = true) :
    ∃ before linkPart after : QMenu,
      showContextMenu F flags = before ++ linkPart ++ after ∧
      linkPart =
        remaining
          (if testFlag flags F.MailMenu then mailSection F flags else linkSection F flags)
          ((if testFlag flags F.ImageMenu then imageSection else []) ++
           (if testFlag flags F.MediaMenu then mediaSection else [])) ∧
      (testFlag flags F.ImageMenu = true →
        MenuEntry.action Action.InspectElementAction ∉ linkPart ∧
        linkPart =
          (if testFlag flags F.MailMenu then mailSection F flags else linkSection F flags) ∧
        (testFlag flags F.MediaMenu = false →
          after = imageSection ∧
          occurrences Action.InspectElementAction imageSection = 1 ∧
          (∃ a b, imageSection =
            a ++ [MenuEntry.action Action.InspectElementAction,
                  MenuEntry.action Action.ImagePropertiesAction] ++ b))) ∧
      (testFlag flags F.ImageMenu = false → testFlag flags F.MediaMenu = false →
        after = [] ∧
        linkPart =
          (if testFlag flags F.MailMenu then mailSection F flags else linkSection F flags) ∧
        ∃ body, linkPart =
          body ++ [MenuEntry.action Action.InspectElementAction, MenuEntry.separator]) := by
  have hLif : (if testFlag flags F.MailMenu then mailSection F flags
      else if testFlag flags F.LinkMenu then linkSection F flags else []) =
      (if testFlag flags F.MailMenu then mailSection F flags else linkSection F flags) := by
    rcases hL with hL | hL
    · simp only [hL, if_true]
    · simp only [hL, if_true]
  refine ⟨(if testFlag flags F.EditMenu then editSection F flags else []) ++
      (if testFlag flags F.SelectionMenu then selectionSection F flags else []),
    remaining
      (if testFlag flags F.MailMenu then mailSection F flags else linkSection F flags)
      ((if testFlag flags F.ImageMenu then imageSection else []) ++
       (if testFlag flags F.MediaMenu then mediaSection else [])),
    remaining (if testFlag flags F.ImageMenu then imageSection else [])
      (if testFlag flags F.MediaMenu then mediaSection else []) ++
      (if testFlag flags F.MediaMenu then mediaSection else []), ?_, rfl, ?_, ?_⟩
  · rw [showContextMenu_sections F flags hS, hLif]
    simp only [List.append_assoc]
  · intro hI
    have hpart : remaining
        (if testFlag flags F.MailMenu then mailSection F flags else linkSection F flags)
        ((if testFlag flags F.ImageMenu then imageSection else []) ++
         (if testFlag flags F.MediaMenu then mediaSection else [])) =
        (if testFlag flags F.MailMenu then mailSection F flags else linkSection F flags) := by
      rw [mailSection_image F flags hI, linkSection_image F flags hI, hI]
      cases testFlag flags F.MailMenu <;> cases testFlag flags F.MediaMenu <;> decide
    refine ⟨?_, hpart, ?_⟩
    · rw [hpart, mailSection_image F flags hI, linkSection_image F flags hI]
      split_ifs <;> decide
    · intro hM
      rw [hI, hM]
      exact ⟨by decide, by decide, ⟨imageSection.take 7, [MenuEntry.separator], by decide⟩⟩
  · intro hI hM
    rw [hI, hM, mailSection_no_image F flags hI, linkSection_no_image F flags hI]
    refine ⟨by decide, ?_, ?_⟩
    · cases testFlag flags F.MailMenu <;> decide
    · cases testFlag flags F.MailMenu
      · exact ⟨List.take 12 (linkSection menuFlagBits 0), by decide⟩
      · exact ⟨List.take 3 (mailSection menuFlagBits 0), by decide⟩

/-- Witness for C3 (amended) at `flags = LinkMenu | ImageMenu` (2 + 8). -/
theorem linkSection_inspectElement_witness :
    ∃ before linkPart after : QMenu,
      showContextMenu menuFlagBits 10 = before ++ linkPart ++ after ∧
      linkPart =
        remaining
          (if testFlag 10 menuFlagBits.MailMenu then mailSection menuFlagBits 10
            else linkSection menuFlagBits 10)
          ((if testFlag 10 menuFlagBits.ImageMenu then imageSection else []) ++
           (if testFlag 10 menuFlagBits.MediaMenu then mediaSection else [])) ∧
      (testFlag 10 menuFlagBits.ImageMenu = true →
        MenuEntry.action Action.InspectElementAction ∉ linkPart ∧
        linkPart =
          (if testFlag 10 menuFlagBits.MailMenu then mailSection menuFlagBits 10
            else linkSection menuFlagBits 10) ∧
        (testFlag 10 menuFlagBits.MediaMenu = false →
          after = imageSection ∧
          occurrences Action.InspectElementAction imageSection = 1 ∧
          (∃ a b, imageSection =
            a ++ [MenuEntry.action Action.InspectElementAction,
                  MenuEntry.action Action.ImagePropertiesAction] ++ b))) ∧
      (testFlag 10 menuFlagBits.ImageMenu = false →
        testFlag 10 menuFlagBits.MediaMenu = false →
        after = [] ∧
        linkPart =
          (if testFlag 10 menuFlagBits.MailMenu then mailSection menuFlagBits 10
            else linkSection menuFlagBits 10) ∧
        ∃ body, linkPart =
          body ++ [MenuEntry.action Action.InspectElementAction, MenuEntry.separator]) :=
  linkSection_inspectElement menuFlagBits 10 (by decide) (Or.inl (by decide))
theorem standardBlock_eq (F : MenuFlagValues) (flags : Nat) :
    standardBlock F flags [] =
      [MenuEntry.action Action.GoBackAction, MenuEntry.action Action.GoForwardAction,
       MenuEntry.action Action.RewindAction, MenuEntry.action Action.FastForwardAction,
       MenuEntry.separator,
       MenuEntry.action Action.ReloadAction, MenuEntry.action Action.ReloadTimeAction,
       MenuEntry.separator,
       MenuEntry.action Action.AddBookmarkAction, MenuEntry.action Action.CopyAddressAction,
       MenuEntry.action Action.PrintAction, MenuEntry.separator] ++
      (if testFlag flags F.FormMenu then
        [MenuEntry.action Action.CreateSearchAction, MenuEntry.separator] else []) ++
      [MenuEntry.action Action.InspectElementAction, MenuEntry.action Action.ViewSourceAction,
       MenuEntry.action Action.ValidateAction, MenuEntry.separator] ++
      (if testFlag flags F.FrameMenu then
        [MenuEntry.menu "Frame" frameMenu, MenuEntry.separator] else []) ++
      [MenuEntry.action Action.ContentBlockingAction,
       MenuEntry.action Action.WebsitePreferencesAction, MenuEntry.separator,
       MenuEntry.action Action.FullScreenAction] := by
  simp only [standardBlock]
  cases testFlag flags F.FormMenu <;> cases testFlag flags F.FrameMenu <;> decide

/-- C4: with `StandardMenu` set the menu is the fixed sequence GoBack, GoForward, Rewind,
FastForward, separator, Reload, ReloadTime, separator, AddBookmark, CopyAddress, Print,
separator, [CreateSearch, separator iff `FormMenu`], InspectElement, ViewSource, Validate,
separator, [the Frame submenu, separator iff `FrameMenu`], ContentBlocking,
WebsitePreferences, separator, FullScreen; and any other flags value with `StandardMenu`
set and the same `FormMenu` and `FrameMenu` bits gives the same menu. -/
theorem standardMenu_fixed (F : MenuFlagValues) (flags : Nat)
    (hS : testFlag flags F.StandardMenu = true) :
    showContextMenu F flags =
      [MenuEntry.action Action.GoBackAction, MenuEntry.action Action.GoForwardAction,
       MenuEntry.action Action.RewindAction, MenuEntry.action Action.FastForwardAction,
       MenuEntry.separator,
       MenuEntry.action Action.ReloadAction, MenuEntry.action Action.ReloadTimeAction,
       MenuEntry.separator,
       MenuEntry.action Action.AddBookmarkAction, MenuEntry.action Action.CopyAddressAction,
       MenuEntry.action Action.PrintAction, MenuEntry.separator] ++
      (if testFlag flags F.FormMenu then
        [MenuEntry.action Action.CreateSearchAction, MenuEntry.separator] else []) ++
      [MenuEntry.action Action.InspectElementAction, MenuEntry.action Action.ViewSourceAction,
       MenuEntry.action Action.ValidateAction, MenuEntry.separator] ++
      (if testFlag flags F.FrameMenu then
        [MenuEntry.menu "Frame" frameMenu, MenuEntry.separator] else []) ++
      [MenuEntry.action Action.ContentBlockingAction,
       MenuEntry.action Action.WebsitePreferencesAction, MenuEntry.separator,
       MenuEntry.action Action.FullScreenAction]
    ∧ ∀ other : Nat, testFlag other F.StandardMenu = true →
        testFlag other F.FormMenu = testFlag flags F.FormMenu →
        testFlag other F.FrameMenu = testFlag flags F.FrameMenu →
        showContextMenu F other = showContextMenu F flags := by
  constructor
  · simp only [showContextMenu, hS, if_true]
    exact standardBlock_eq F flags
  · intro other hO hForm hFrame
    simp only [showContextMenu, hS, hO, if_true]
    rw [standardBlock_eq, standardBlock_eq, hForm, hFrame]

/-- Witness for C4 at `flags = StandardMenu | FormMenu` (1 + 256), compared with
`StandardMenu | FormMenu | LinkMenu | ImageMenu | EditMenu` (1 + 256 + 2 + 8 + 64). -/
theorem standardMenu_fixed_witness :
    testFlag 257 menuFlagBits.StandardMenu = true ∧
    showContextMenu menuFlagBits 331 = showContextMenu menuFlagBits 257 :=
  ⟨by decide,
   (standardMenu_fixed menuFlagBits 257 (by decide)).2 331 (by decide) (by decide) (by decide)⟩

/-- The link-only actions are in none of the edit section's entries, nor is
`CopyLinkToClipboardAction`. -/
theorem editSection_no_link_actions (F : MenuFlagValues) (flags : Nat) :
    ∀ a ∈ [Action.OpenLinkAction, Action.OpenLinkInNewTabAction,
        Action.OpenLinkInNewTabBackgroundAction, Action.OpenLinkInNewWindowAction,
        Action.OpenLinkInNewWindowBackgroundAction, Action.BookmarkLinkAction,
        Action.SaveLinkToDiskAction, Action.SaveLinkToDownloadsAction,
        Action.CopyLinkToClipboardAction],
      MenuEntry.action a ∉ editSection F flags := by
  simp only [editSection, editBlock]
  split_ifs <;> decide

theorem selectionSection_no_link_actions (F : MenuFlagValues) (flags : Nat) :
    ∀ a ∈ [Action.OpenLinkAction, Action.OpenLinkInNewTabAction,
        Action.OpenLinkInNewTabBackgroundAction, Action.OpenLinkInNewWindowAction,
        Action.OpenLinkInNewWindowBackgroundAction, Action.BookmarkLinkAction,
        Action.SaveLinkToDiskAction, Action.SaveLinkToDownloadsAction,
        Action.CopyLinkToClipboardAction],
      MenuEntry.action a ∉ selectionSection F flags := by
  simp only [selectionSection, selectionBlock]
  split_ifs <;> decide

theorem mailSection_no_link_only_actions (F : MenuFlagValues) (flags : Nat) :
    ∀ a ∈ [Action.OpenLinkAction, Action.OpenLinkInNewTabAction,
        Action.OpenLinkInNewTabBackgroundAction, Action.OpenLinkInNewWindowAction,
        Action.OpenLinkInNewWindowBackgroundAction, Action.BookmarkLinkAction,
        Action.SaveLinkToDiskAction, Action.SaveLinkToDownloadsAction],
      MenuEntry.action a ∉ mailSection F flags := by
  simp only [mailSection, mailBlock]
  split_ifs <;> decide

theorem imageSection_no_link_actions :
    ∀ a ∈ [Action.OpenLinkAction, Action.OpenLinkInNewTabAction,
        Action.OpenLinkInNewTabBackgroundAction, Action.OpenLinkInNewWindowAction,
        Action.OpenLinkInNewWindowBackgroundAction, Action.BookmarkLinkAction,
        Action.SaveLinkToDiskAction, Action.SaveLinkToDownloadsAction,
        Action.CopyLinkToClipboardAction],
      MenuEntry.action a ∉ imageSection ∧ MenuEntry.action a ∉ mediaSection := by
  decide

theorem mem_of_mem_remaining (entry : MenuEntry) (part later : QMenu)
    (h : entry ∈ remaining part later) : entry ∈ part :=
  (List.mem_filter.mp h).1

theorem occurrences_eq_zero_of_not_mem (a : Action) (menu : QMenu)
    (h : MenuEntry.action a ∉ menu) : occurrences a menu = 0 := by
  simpa [occurrences, List.count_eq_zero] using h

/-- What the menu keeps of the mail section starts with its first three entries. -/
theorem mailPart_start (F : MenuFlagValues) (flags : Nat) :
    remaining (mailSection F flags)
      ((if testFlag flags F.ImageMenu then imageSection else []) ++
       (if testFlag flags F.MediaMenu then mediaSection else [])) =
      [MenuEntry.action Action.OpenLinkInCurrentTabAction, MenuEntry.separator,
       MenuEntry.action Action.CopyLinkToClipboardAction] ++
      (remaining (mailSection F flags)
        ((if testFlag flags F.ImageMenu then imageSection else []) ++
         (if testFlag flags F.MediaMenu then mediaSection else []))).drop 3 := by
  simp only [mailSection, mailBlock]
  cases testFlag flags F.ImageMenu <;> cases testFlag flags F.MediaMenu <;> decide

theorem occurrences_copyLink_linkPart (F : MenuFlagValues) (flags : Nat)
    (h : testFlag flags F.MailMenu = true ∨ testFlag flags F.LinkMenu = true) :
    occurrences Action.CopyLinkToClipboardAction
      (remaining (if testFlag flags F.MailMenu then mailSection F flags
          else if testFlag flags F.LinkMenu then linkSection F flags else [])
        ((if testFlag flags F.ImageMenu then imageSection else []) ++
         (if testFlag flags F.MediaMenu then mediaSection else []))) = 1 := by
  simp only [mailSection, mailBlock, linkSection, linkBlock]
  revert h
  cases testFlag flags F.MailMenu <;> cases testFlag flags F.LinkMenu <;>
    cases testFlag flags F.ImageMenu <;> cases testFlag flags F.MediaMenu <;> decide

/-- C5 (counterexample): at `flags = StandardMenu | LinkMenu` (1 + 2) `LinkMenu` is set
and `CopyLinkToClipboardAction` does not occur in the menu, so it does not occur
exactly once. -/
theorem copyLink_absent_with_standardMenu :
    testFlag 3 menuFlagBits.LinkMenu = true ∧
    occurrences Action.CopyLinkToClipboardAction (showContextMenu menuFlagBits 3) = 0 ∧
    occurrences Action.CopyLinkToClipboardAction (showContextMenu menuFlagBits 3) ≠ 1 := by
  decide

/-- C5 (amended): with `StandardMenu` clear, (1) when both `MailMenu` and `LinkMenu` are
set the menu contains the mail part, which is what the menu keeps of the mail section
and starts OpenLinkInCurrentTab, separator, CopyLinkToClipboard, and the menu contains
none of the link-only actions; (2) whenever `MailMenu` or `LinkMenu` is set,
`CopyLinkToClipboardAction` occurs exactly once. -/
theorem mail_excludes_link (F : MenuFlagValues) (flags : Nat)
    (hS : testFlag flags F.StandardMenu = false) :
    (testFlag flags F.MailMenu = true → testFlag flags F.LinkMenu = true →
      (∃ before after rest : QMenu,
        showContextMenu F flags =
          before ++
          ([MenuEntry.action Action.OpenLinkInCurrentTabAction, MenuEntry.separator,
            MenuEntry.action Action.CopyLinkToClipboardAction] ++ rest) ++ after ∧
        [MenuEntry.action Action.OpenLinkInCurrentTabAction, MenuEntry.separator,
          MenuEntry.action Action.CopyLinkToClipboardAction] ++ rest =
          remaining (mailSection F flags)
            ((if testFlag flags F.ImageMenu then imageSection else []) ++
             (if testFlag flags F.MediaMenu then mediaSection else []))) ∧
      ∀ a ∈ [Action.OpenLinkAction, Action.OpenLinkInNewTabAction,
          Action.OpenLinkInNewTabBackgroundAction, Action.OpenLinkInNewWindowAction,
          Action.OpenLinkInNewWindowBackgroundAction, Action.BookmarkLinkAction,
          Action.SaveLinkToDiskAction, Action.SaveLinkToDownloadsAction],
        MenuEntry.action a ∉ showContextMenu F flags) ∧
    (testFlag flags F.MailMenu = true ∨ testFlag flags F.LinkMenu = true →
      occurrences Action.CopyLinkToClipboardAction (showContextMenu F flags) = 1) := by
  have hsec := showContextMenu_sections F flags hS
  have hE := editSection_no_link_actions F flags
  have hSel := selectionSection_no_link_actions F flags
  have hI := imageSection_no_link_actions
  constructor
  · intro hM _
    refine ⟨⟨(if testFlag flags F.EditMenu then editSection F flags else []) ++
        (if testFlag flags F.SelectionMenu then selectionSection F flags else []),
      remaining (if testFlag flags F.ImageMenu then imageSection else [])
        (if testFlag flags F.MediaMenu then mediaSection else []) ++
        (if testFlag flags F.MediaMenu then mediaSection else []),
      (remaining (mailSection F flags)
        ((if testFlag flags F.ImageMenu then imageSection else []) ++
         (if testFlag flags F.MediaMenu then mediaSection else []))).drop 3, ?_, ?_⟩, ?_⟩
    · rw [← mailPart_start, hsec]
      simp only [hM, if_true, List.append_assoc]
    · exact (mailPart_start F flags).symm
    · intro a ha
      have ha' : a ∈ [Action.OpenLinkAction, Action.OpenLinkInNewTabAction,
          Action.OpenLinkInNewTabBackgroundAction, Action.OpenLinkInNewWindowAction,
          Action.OpenLinkInNewWindowBackgroundAction, Action.BookmarkLinkAction,
          Action.SaveLinkToDiskAction, Action.SaveLinkToDownloadsAction,
          Action.CopyLinkToClipboardAction] := by
        simp only [List.mem_cons] at ha ⊢
        tauto
      have h1 := hE a ha'
      have h2 := hSel a ha'
      have h3 := mailSection_no_link_only_actions F flags a ha
      have h4 := hI a ha'
      rw [hsec]
      simp only [hM, if_true, List.mem_append, not_or]
      refine ⟨⟨⟨⟨?_, ?_⟩, ?_⟩, ?_⟩, ?_⟩
      · split_ifs
        · exact h1
        · simp
      · split_ifs
        · exact h2
        · simp
      · exact fun hmem => h3 (mem_of_mem_remaining _ _ _ hmem)
      · intro hmem
        have hmem' := mem_of_mem_remaining _ _ _ hmem
        split_ifs at hmem'
        · exact h4.1 hmem'
        · simp at hmem'
      · split_ifs
        · exact h4.2
        · simp
  · intro hML
    have hc : Action.CopyLinkToClipboardAction ∈ [Action.OpenLinkAction,
        Action.OpenLinkInNewTabAction,
        Action.OpenLinkInNewTabBackgroundAction, Action.OpenLinkInNewWindowAction,
        Action.OpenLinkInNewWindowBackgroundAction, Action.BookmarkLinkAction,
        Action.SaveLinkToDiskAction, Action.SaveLinkToDownloadsAction,
        Action.CopyLinkToClipboardAction] := by decide
    have hE0 : occurrences Action.CopyLinkToClipboardAction
        (if testFlag flags F.EditMenu then editSection F flags else []) = 0 := by
      apply occurrences_eq_zero_of_not_mem
      split_ifs
      · exact hE _ hc
      · simp
    have hS0 : occurrences Action.CopyLinkToClipboardAction
        (if testFlag flags F.SelectionMenu then selectionSection F flags else []) = 0 := by
      apply occurrences_eq_zero_of_not_mem
      split_ifs
      · exact hSel _ hc
      · simp
    have hI0 : occurrences Action.CopyLinkToClipboardAction
        (remaining (if testFlag flags F.ImageMenu then imageSection else [])
          (if testFlag flags F.MediaMenu then mediaSection else [])) = 0 := by
      apply occurrences_eq_zero_of_not_mem
      intro hmem
      have hmem' := mem_of_mem_remaining _ _ _ hmem
      split_ifs at hmem'
      · exact (hI _ hc).1 hmem'
      · simp at hmem'
    have hM0 : occurrences Action.CopyLinkToClipboardAction
        (if testFlag flags F.MediaMenu then mediaSection else []) = 0 := by
      apply occurrences_eq_zero_of_not_mem
      split_ifs
      · exact (hI _ hc).2
      · simp
    rw [hsec]
    simp only [occurrences_append]
    rw [hE0, hS0, hI0, hM0, occurrences_copyLink_linkPart F flags hML]

/-- Witness for C5 (amended) at `flags = MailMenu | LinkMenu` (4 + 2). -/
theorem mail_excludes_link_witness :
    testFlag 6 menuFlagBits.StandardMenu = false ∧
    occurrences Action.CopyLinkToClipboardAction (showContextMenu menuFlagBits 6) = 1 :=
  ⟨by decide, (mail_excludes_link menuFlagBits 6 (by decide)).2 (Or.inl (by decide))⟩

theorem occurrences_copy_editSection (F : MenuFlagValues) (flags : Nat) :
    occurrences Action.CopyAction (editSection F flags) = 1 := by
  simp only [editSection, editBlock]
  split_ifs <;> decide

theorem selectionSection_eq (F : MenuFlagValues) (flags : Nat) :
    selectionSection F flags =
      [MenuEntry.action Action.SearchAction, MenuEntry.action Action.SearchMenuAction,
       MenuEntry.separator] ++
      (if testFlag flags F.EditMenu then []
        else [MenuEntry.action Action.CopyAction, MenuEntry.separator]) ++
      [MenuEntry.action Action.OpenSelectionAsLinkAction, MenuEntry.separator] := by
  simp only [selectionSection, selectionBlock]
  cases testFlag flags F.EditMenu <;> decide

/-- C9: for every flags value `CopyAction` occurs at most once in the menu; the
selection section is Search, SearchMenu, separator, then CopyAction and a separator
exactly when `EditMenu` is clear, then OpenSelectionAsLink, separator; the edit section
contains `CopyAction` exactly once; and with `StandardMenu` clear these sections are the
first two parts of the menu. -/
theorem copyAction_at_most_once (F : MenuFlagValues) (flags : Nat) :
    occurrences Action.CopyAction (showContextMenu F flags) ≤ 1 ∧
    selectionSection F flags =
      [MenuEntry.action Action.SearchAction, MenuEntry.action Action.SearchMenuAction,
       MenuEntry.separator] ++
      (if testFlag flags F.EditMenu then []
        else [MenuEntry.action Action.CopyAction, MenuEntry.separator]) ++
      [MenuEntry.action Action.OpenSelectionAsLinkAction, MenuEntry.separator] ∧
    (MenuEntry.action Action.CopyAction ∈ selectionSection F flags ↔
      testFlag flags F.EditMenu = false) ∧
    occurrences Action.CopyAction (editSection F flags) = 1 ∧
    (testFlag flags F.StandardMenu = false →
      ∃ rest, showContextMenu F flags =
        (if testFlag flags F.EditMenu then editSection F flags else []) ++
        (if testFlag flags F.SelectionMenu then selectionSection F flags else []) ++ rest) := by
  refine ⟨occurrences_showContextMenu _ F flags, selectionSection_eq F flags, ?_,
    occurrences_copy_editSection F flags, ?_⟩
  · rw [selectionSection_eq]
    cases testFlag flags F.EditMenu <;> decide
  · intro hS
    exact ⟨remaining (if testFlag flags F.MailMenu then mailSection F flags
          else if testFlag flags F.LinkMenu then linkSection F flags else [])
        ((if testFlag flags F.ImageMenu then imageSection else []) ++
         (if testFlag flags F.MediaMenu then mediaSection else [])) ++
      remaining (if testFlag flags F.ImageMenu then imageSection else [])
        (if testFlag flags F.MediaMenu then mediaSection else []) ++
      (if testFlag flags F.MediaMenu then mediaSection else []),
      by rw [showContextMenu_sections F flags hS]; simp only [List.append_assoc]⟩

/-- Witness for C9 at `flags = SelectionMenu` (32): the hypothesis of the last part
holds and the menu is the selection section, with its CopyAction. -/
theorem copyAction_at_most_once_witness :
    testFlag 32 menuFlagBits.StandardMenu = false ∧
    ∃ rest, showContextMenu menuFlagBits 32 =
      (if testFlag 32 menuFlagBits.EditMenu then editSection menuFlagBits 32 else []) ++
      (if testFlag 32 menuFlagBits.SelectionMenu then selectionSection menuFlagBits 32
        else []) ++ rest :=
  ⟨by decide, (copyAction_at_most_once menuFlagBits 32).2.2.2.2 (by decide)⟩

/-! ## Theorems: toolbar -/

theorem createWidget_congr (env : Environment) (entry : ToolBarActionDefinition)
    (a b : ToolBarWidget) (h1 : a.m_identifier = b.m_identifier)
    (h2 : a.m_mainWindow = b.m_mainWindow) :
    createWidget env entry (some a) = createWidget env entry (some b) := by
  simp only [createWidget, ToolBarWidget.getIdentifier, h1, h2]

/-- The item that `setup` appends for an entry of a toolbar that is not the tab bar. -/
theorem addActions_actions (env : Environment) (tabBar : Option Nat)
    (entries : List ToolBarActionDefinition) :
    ∀ self : ToolBarWidget, self.m_identifier ≠ env.TabBar →
      (addActions env tabBar entries self).actions =
        self.actions ++ entries.map (fun entry =>
          if entry.action = "separator" then ToolBarItem.separator
          else ToolBarItem.widget (createWidget env entry (some self))) := by
  induction entries with
  | nil => intro self _; simp [addActions]
  | cons entry rest ih =>
    intro self hId
    by_cases hSep : entry.action = "separator"
    · have h := ih self.addSeparator hId
      simp only [addActions, hSep, if_true, List.map_cons]
      rw [h]
      simp only [ToolBarWidget.addSeparator, List.append_assoc, List.singleton_append]
      congr 2
    · have h := ih (self.addWidget (createWidget env entry (some self))) hId
      simp only [addActions, hSep, if_false, hId, false_and, List.map_cons]
      rw [h]
      simp only [ToolBarWidget.addWidget, List.append_assoc, List.singleton_append]
      congr 2

theorem setup_actions_of_plain (env : Environment) (self : ToolBarWidget)
    (hId : self.m_identifier ≠ env.TabBar)
    (hB : (env.getToolBarDefinition self.m_identifier).bookmarksPath = "") :
    (setup env self).actions =
      (env.getToolBarDefinition self.m_identifier).actions.map (fun entry =>
        if entry.action = "separator" then ToolBarItem.separator
        else ToolBarItem.widget (createWidget env entry (some self))) := by
  have hE : ¬ ((env.getToolBarDefinition self.m_identifier).bookmarksPath.data ≠ []) := by
    rw [hB]; simp
  simp only [setup, hId, if_false, hE, ToolBarWidget.clear]
  split_ifs
  · refine (addActions_actions env none _ _ (id ?_)).trans ?_
    · exact hId
    simp only [List.nil_append]
    apply List.map_congr_left
    intro e _
    simp only [createWidget, ToolBarWidget.getIdentifier]
  · refine (addActions_actions env none _ _ (id ?_)).trans ?_
    · exact hId
    simp only [List.nil_append]
    apply List.map_congr_left
    intro e _
    simp only [createWidget, ToolBarWidget.getIdentifier]

/-- C6: for a toolbar whose identifier is not `TabBar` and a stored definition with an
empty `bookmarksPath`, `setup()` leaves exactly one item per entry of
`definition.actions`, in the definition's order: a separator if and only if the entry is
named "separator", otherwise the result of `createWidget` for the entry; and the items
do not depend on what the toolbar held before. (`createWidget` reads only the
identifier and the main window of the toolbar it is given, which `setup()` leaves
unchanged, so the toolbar before `setup()` stands for `this`.) -/
theorem setup_builds_definition (env : Environment) (self : ToolBarWidget)
    (hId : self.m_identifier ≠ env.TabBar)
    (hB : (env.getToolBarDefinition self.m_identifier).bookmarksPath = "") :
    (setup env self).actions =
        (env.getToolBarDefinition self.m_identifier).actions.map (fun entry =>
          if entry.action = "separator" then ToolBarItem.separator
          else ToolBarItem.widget (createWidget env entry (some self)))
      ∧ (setup env self).actions.length =
          (env.getToolBarDefinition self.m_identifier).actions.length
      ∧ (∀ i (h : i < (env.getToolBarDefinition self.m_identifier).actions.length),
          ((setup env self).actions[i]? = some ToolBarItem.separator ↔
            (env.getToolBarDefinition self.m_identifier).actions[i].action = "separator"))
      ∧ (∀ old : List ToolBarItem,
          (setup env { self with actions := old }).actions = (setup env self).actions) := by
  have hmain := setup_actions_of_plain env self hId hB
  refine ⟨hmain, ?_, ?_, ?_⟩
  · rw [hmain, List.length_map]
  · intro i h
    rw [hmain, List.getElem?_map, List.getElem?_eq_getElem h]
    simp only [Option.map_some']
    by_cases hSep : (env.getToolBarDefinition self.m_identifier).actions[i].action = "separator"
    · simp [hSep]
    · simp [hSep]
  · intro old
    rw [hmain, setup_actions_of_plain env { self with actions := old } hId hB]
    apply List.map_congr_left
    intro e _
    have hc := createWidget_congr env e { self with actions := old } self rfl rfl
    simp only [hc]

/-- Witness for C6: toolbar 0 with the stored entries AddressWidget, separator,
ReloadAction and an unknown name, rebuilt over two stale items. -/
theorem setup_builds_definition_witness :
    (setup (exampleEnvironment (plainDefinition ["AddressWidget", "separator", "ReloadAction", "Nothing"]))
      { m_mainWindow := none, m_identifier := 0,
        actions := [ToolBarItem.separator, ToolBarItem.widget (some Widget.ZoomWidget)],
        visible := true, toolButtonStyle := 0, iconSize := 0,
        modelModifiedConnections := 0, toolBarModifiedConnections := 1 }).actions.length = 4 :=
  (setup_builds_definition
    (exampleEnvironment (plainDefinition ["AddressWidget", "separator", "ReloadAction", "Nothing"]))
    { m_mainWindow := none, m_identifier := 0,
      actions := [ToolBarItem.separator, ToolBarItem.widget (some Widget.ZoomWidget)],
      visible := true, toolButtonStyle := 0, iconSize := 0,
      modelModifiedConnections := 0, toolBarModifiedConnections := 1 }
    (by decide) (by decide)).2.1

theorem addBookmarks_actions (env : Environment) (rows : List (Option BookmarksItem)) :
    ∀ self : ToolBarWidget,
      (addBookmarks env rows self).actions =
        self.actions ++ rows.filterMap (fun row => row.map (fun bookmark =>
          if env.isSeparatorBookmark bookmark then ToolBarItem.separator
          else ToolBarItem.widget (some (Widget.BookmarkWidget bookmark)))) := by
  induction rows with
  | nil => intro self; simp [addBookmarks]
  | cons row rest ih =>
    intro self
    cases row with
    | none => simp [addBookmarks, ih]
    | some bookmark =>
      by_cases hSep : env.isSeparatorBookmark bookmark = true
      · simp [addBookmarks, hSep, ih, ToolBarWidget.addSeparator]
      · simp [addBookmarks, hSep, ih, ToolBarWidget.addWidget]

/-- Whatever the bookmarks model holds, `updateBookmarks()` leaves only separators and
bookmark widgets in the toolbar. -/
theorem updateBookmarks_actions_mem (env : Environment) (self : ToolBarWidget)
    (item : ToolBarItem) (h : item ∈ (updateBookmarks env self).actions) :
    item = ToolBarItem.separator ∨
      ∃ bookmark, item = ToolBarItem.widget (some (Widget.BookmarkWidget bookmark)) := by
  simp only [updateBookmarks, ToolBarWidget.clear] at h
  split at h
  · simp at h
  · rw [addBookmarks_actions] at h
    simp only [List.nil_append, List.mem_filterMap, Option.map_eq_some'] at h
    obtain ⟨row, _, bookmark, _, hItem⟩ := h
    by_cases hSep : env.isSeparatorBookmark bookmark = true
    · left; simp [hSep] at hItem; exact hItem.symm
    · right; simp [hSep] at hItem; exact ⟨bookmark, hItem.symm⟩

/-- Once a toolbar is subscribed to `modelModified()`, a delivery of that signal leaves
only separators and bookmark widgets, whatever its stored definition is by then. -/
theorem modelModified_leaves_bookmarks_only (env : Environment) (self : ToolBarWidget)
    (hSub : 0 < self.modelModifiedConnections) (item : ToolBarItem)
    (h : item ∈ (deliver env self Notification.modelModified).actions) :
    item = ToolBarItem.separator ∨
      ∃ bookmark, item = ToolBarItem.widget (some (Widget.BookmarkWidget bookmark)) := by
  obtain ⟨n, hn⟩ := Nat.exists_eq_succ_of_ne_zero (Nat.pos_iff_ne_zero.mp hSub)
  simp only [deliver, hn, Function.iterate_succ_apply'] at h
  exact updateBookmarks_actions_mem env _ item h

/-- C7 (the code at the failing input): toolbar 0 is created while its stored definition
shows the bookmarks folder "/", so `setup()` subscribes it to `modelModified()`. The
definition then becomes the plain list [AddressWidget] and `toolBarModified(0)` rebuilds
the toolbar to that list. A later `modelModified()` still reaches `updateBookmarks()`,
which empties the toolbar, although a fresh `setup()` from the stored definition gives
[AddressWidget]. -/
theorem stale_bookmarks_subscription_clears_toolbar :
    (ToolBarWidget.create (exampleEnvironment bookmarksDefinition) 0 none).actions =
      [ToolBarItem.widget (some (Widget.BookmarkWidget ⟨7⟩)), ToolBarItem.separator] ∧
    (run (ToolBarWidget.create (exampleEnvironment bookmarksDefinition) 0 none)
      [(exampleEnvironment (plainDefinition ["AddressWidget"]),
        Notification.toolBarModified 0)]).actions =
      [ToolBarItem.widget (some Widget.AddressWidget)] ∧
    (run (ToolBarWidget.create (exampleEnvironment bookmarksDefinition) 0 none)
      [(exampleEnvironment (plainDefinition ["AddressWidget"]),
        Notification.toolBarModified 0),
       (exampleEnvironment (plainDefinition ["AddressWidget"]),
        Notification.modelModified)]).actions = [] ∧
    (setup (exampleEnvironment (plainDefinition ["AddressWidget"]))
      (run (ToolBarWidget.create (exampleEnvironment bookmarksDefinition) 0 none)
        [(exampleEnvironment (plainDefinition ["AddressWidget"]),
          Notification.toolBarModified 0),
         (exampleEnvironment (plainDefinition ["AddressWidget"]),
          Notification.modelModified)])).actions =
      [ToolBarItem.widget (some Widget.AddressWidget)] := by
  decide

/-- C8 (the code at the failing input): the tab bar toolbar (identifier 1) of a main
window that owns the tab bar widget at address 42, with the stored entries
AddressWidget, TabBarWidget. The first `setup()` gives [AddressWidget, tab bar]; a second
`setup()` keeps the tab bar item of the first and appends the definition's items again,
giving [tab bar, AddressWidget, tab bar]. -/
theorem setup_twice_accumulates_tabBar :
    (ToolBarWidget.create (exampleEnvironment (plainDefinition ["AddressWidget", "TabBarWidget"]))
      1 (some ⟨some 42⟩)).actions =
      [ToolBarItem.widget (some Widget.AddressWidget),
       ToolBarItem.widget (some (Widget.tabBar 42))] ∧
    (setup (exampleEnvironment (plainDefinition ["AddressWidget", "TabBarWidget"]))
      (ToolBarWidget.create
        (exampleEnvironment (plainDefinition ["AddressWidget", "TabBarWidget"]))
        1 (some ⟨some 42⟩))).actions =
      [ToolBarItem.widget (some (Widget.tabBar 42)),
       ToolBarItem.widget (some Widget.AddressWidget),
       ToolBarItem.widget (some (Widget.tabBar 42))] := by
  decide

theorem lookupBookmark_of_not_startsWith (env : Environment) (name : String)
    (h : startsWith name "bookmarks:" = false) : lookupBookmark env name = none := by
  simp [lookupBookmark, h]

/-- A name that ends with "Action" is none of the fixed widget names. -/
theorem fixed_names_of_endsWith_action (name : String) (h : endsWith name "Action" = true) :
    name ≠ "spacer" ∧ name ≠ "AddressWidget" ∧ name ≠ "ClosedWindowsWidget" ∧
    name ≠ "MenuButtonWidget" ∧ name ≠ "PanelChooserWidget" ∧ name ≠ "SearchWidget" ∧
    name ≠ "StatusMessageWidget" ∧ name ≠ "TabBarWidget" ∧ name ≠ "ZoomWidget" := by
  refine ⟨?_, ?_, ?_, ?_, ?_, ?_, ?_, ?_, ?_⟩ <;>
    (rintro rfl; exact absurd h (by decide))

/-- C10 (counterexample): the name "bookmarks:/ReloadAction" ends with "Action" and the
registry's identifier for the name without its last 6 characters is negative, yet when
the bookmarks model has an item at that path `createWidget` returns a `BookmarkWidget`,
not NULL. -/
theorem createWidget_bookmark_before_action :
    endsWith "bookmarks:/ReloadAction" "Action" = true ∧
    (exampleEnvironment bookmarksDefinition).getActionIdentifier
      (left "bookmarks:/ReloadAction" ("bookmarks:/ReloadAction".length - 6)) < 0 ∧
    createWidget
      { exampleEnvironment bookmarksDefinition with getItem := fun _ => some ⟨5⟩ }
      ⟨"bookmarks:/ReloadAction"⟩ none = some (Widget.BookmarkWidget ⟨5⟩) ∧
    createWidget
      { exampleEnvironment bookmarksDefinition with getItem := fun _ => some ⟨5⟩ }
      ⟨"bookmarks:/ReloadAction"⟩ none ≠ none := by
  decide

/-- C10 (amended): `createWidget` returns NULL for every name that is none of the nine
fixed names, does not start with "bookmarks:" and does not end with "Action". For a name
ending with "Action" for which the bookmark lookup finds nothing (as for every name
that does not start with "bookmarks:") it returns NULL exactly when
`getActionIdentifier(name without its last 6 characters)` is negative, and otherwise a
`GoBackActionWidget` for `GoBackAction`, else a `GoForwardActionWidget` for
`GoForwardAction`, else an `ActionWidget` with that identifier. For "TabBarWidget" it
returns a new `TabBarWidget` when the toolbar is the `TabBar` toolbar of a main window
that has no tab bar yet, and NULL otherwise. -/
theorem createWidget_resolution (env : Environment) (name : String)
    (toolBar : Option ToolBarWidget) :
    (name ∉ ["spacer", "AddressWidget", "ClosedWindowsWidget", "MenuButtonWidget",
        "PanelChooserWidget", "SearchWidget", "StatusMessageWidget", "TabBarWidget",
        "ZoomWidget"] →
      startsWith name "bookmarks:" = false → endsWith name "Action" = false →
      createWidget env ⟨name⟩ toolBar = none) ∧
    (startsWith name "bookmarks:" = false → lookupBookmark env name = none) ∧
    (endsWith name "Action" = true → lookupBookmark env name = none →
      (createWidget env ⟨name⟩ toolBar = none ↔
        env.getActionIdentifier (left name (name.length - 6)) < 0) ∧
      (0 ≤ env.getActionIdentifier (left name (name.length - 6)) →
        createWidget env ⟨name⟩ toolBar = some
          (if env.getActionIdentifier (left name (name.length - 6)) = env.GoBackAction then
            Widget.GoBackActionWidget
          else if env.getActionIdentifier (left name (name.length - 6)) = env.GoForwardAction
            then Widget.GoForwardActionWidget
          else Widget.ActionWidget (env.getActionIdentifier (left name (name.length - 6)))))) ∧
    (createWidget env ⟨"TabBarWidget"⟩ toolBar = some Widget.TabBarWidget ↔
      ∃ tb mainWindow, toolBar = some tb ∧ tb.m_identifier = env.TabBar ∧
        tb.m_mainWindow = some mainWindow ∧ mainWindow.getTabBar = none) ∧
    (createWidget env ⟨"TabBarWidget"⟩ toolBar = none ∨
      createWidget env ⟨"TabBarWidget"⟩ toolBar = some Widget.TabBarWidget) := by
  refine ⟨?_, lookupBookmark_of_not_startsWith env name, ?_, ?_, ?_⟩
  · intro hName hB hA
    simp only [List.mem_cons, List.mem_singleton, List.not_mem_nil, or_false, not_or] at hName
    obtain ⟨h1, h2, h3, h4, h5, h6, h7, h8, h9⟩ := hName
    simp [createWidget, h1, h2, h3, h4, h5, h6, h7, h8, h9,
      lookupBookmark_of_not_startsWith env name hB, hA]
  · intro hA hB
    obtain ⟨h1, h2, h3, h4, h5, h6, h7, h8, h9⟩ := fixed_names_of_endsWith_action name hA
    have hcw : createWidget env ⟨name⟩ toolBar =
        if env.getActionIdentifier (left name (name.length - 6)) ≥ 0 then
          (if env.getActionIdentifier (left name (name.length - 6)) = env.GoBackAction then
            some Widget.GoBackActionWidget
          else if env.getActionIdentifier (left name (name.length - 6)) = env.GoForwardAction
            then some Widget.GoForwardActionWidget
          else some (Widget.ActionWidget (env.getActionIdentifier (left name (name.length - 6)))))
        else none := by
      simp only [createWidget, h1, h2, h3, h4, h5, h6, h7, h8, h9, if_false, hB, hA, if_true]
    rw [hcw]
    constructor
    · constructor
      · intro h
        by_contra hneg
        have hge : env.getActionIdentifier (left name (name.length - 6)) ≥ 0 := by omega
        rw [if_pos hge] at h
        split_ifs at h
      · intro h
        have hlt : ¬ env.getActionIdentifier (left name (name.length - 6)) ≥ 0 := by omega
        rw [if_neg hlt]
    · intro hge
      rw [if_pos hge]
      split_ifs <;> rfl
  · cases toolBar with
    | none => simp [createWidget]
    | some tb =>
      by_cases hId : tb.m_identifier = env.TabBar
      · cases hMw : tb.m_mainWindow with
        | none => simp [createWidget, ToolBarWidget.getIdentifier, hId, hMw]
        | some mw =>
          cases hT : mw.getTabBar with
          | none => simp [createWidget, ToolBarWidget.getIdentifier, hId, hMw, hT]
          | some t => simp [createWidget, ToolBarWidget.getIdentifier, hId, hMw, hT]
      · simp [createWidget, ToolBarWidget.getIdentifier, hId]
  · cases toolBar with
    | none => simp [createWidget]
    | some tb =>
      by_cases hId : tb.m_identifier = env.TabBar
      · cases hMw : tb.m_mainWindow with
        | none => simp [createWidget, ToolBarWidget.getIdentifier, hId, hMw]
        | some mw =>
          cases hT : mw.getTabBar with
          | none => simp [createWidget, ToolBarWidget.getIdentifier, hId, hMw, hT]
          | some t => simp [createWidget, ToolBarWidget.getIdentifier, hId, hMw, hT]
      · simp [createWidget, ToolBarWidget.getIdentifier, hId]

/-- Witness for C10 (amended): the name "ReloadAction", which the example registry
resolves to identifier 2, gives an `ActionWidget` with identifier 2, and the unknown
name "Nothing" gives NULL. -/
theorem createWidget_resolution_witness :
    endsWith "ReloadAction" "Action" = true ∧
    lookupBookmark (exampleEnvironment bookmarksDefinition) "ReloadAction" = none ∧
    createWidget (exampleEnvironment bookmarksDefinition) ⟨"ReloadAction"⟩ none =
      some (Widget.ActionWidget 2) ∧
    startsWith "Nothing" "bookmarks:" = false ∧ endsWith "Nothing" "Action" = false ∧
    createWidget (exampleEnvironment bookmarksDefinition) ⟨"Nothing"⟩ none = none :=
  ⟨by decide, by decide,
   (((createWidget_resolution (exampleEnvironment bookmarksDefinition) "ReloadAction"
      none).2.2.1 (by decide) (by decide)).2 (by decide)).trans (by decide),
   by decide, by decide,
   (createWidget_resolution (exampleEnvironment bookmarksDefinition) "Nothing" none).1
      (by decide) (by decide) (by decide)⟩

/-- C11 (the code at the failing input): "bookmarks:" has 10 characters, yet the
identifier is read from position 11 (`mid(11)`), so its first digit is dropped. In the
example model only bookmark 7 exists: for "bookmarks:17" the code looks up bookmark 7
and returns a widget for it, although no bookmark 17 exists; for "bookmarks:7" it looks
up bookmark 0 and returns NULL, although bookmark 7 exists. A name "bookmarks:/" followed
by a path is looked up at that path. -/
theorem createWidget_bookmark_identifier_drops_digit :
    mid "bookmarks:17" 11 = "7" ∧
    toULongLong (mid "bookmarks:17" 11) = 7 ∧
    (exampleEnvironment bookmarksDefinition).getBookmark 17 = none ∧
    createWidget (exampleEnvironment bookmarksDefinition) ⟨"bookmarks:17"⟩ none =
      some (Widget.BookmarkWidget ⟨7⟩) ∧
    mid "bookmarks:7" 11 = "" ∧
    toULongLong (mid "bookmarks:7" 11) = 0 ∧
    (exampleEnvironment bookmarksDefinition).getBookmark 7 = some ⟨7⟩ ∧
    createWidget (exampleEnvironment bookmarksDefinition) ⟨"bookmarks:7"⟩ none = none ∧
    mid "bookmarks://" 11 = "/" ∧
    createWidget (exampleEnvironment bookmarksDefinition) ⟨"bookmarks://"⟩ none =
      some (Widget.BookmarkWidget ⟨0⟩) := by
  decide

/-- The true half of C11: a name "bookmarks:/" followed by a path `P` is looked up in
the bookmarks model at `P`. -/
theorem lookupBookmark_path (env : Environment) (path : String) :
    lookupBookmark env ("bookmarks:/" ++ path) = env.getItem path := by
  have h1 : startsWith ("bookmarks:/" ++ path) "bookmarks:" = true := by
    simp [startsWith, String.data_append]
  have h2 : startsWith ("bookmarks:/" ++ path) "bookmarks:/" = true := by
    simp [startsWith, String.data_append]
  have h3 : mid ("bookmarks:/" ++ path) 11 = path := by
    simp [mid, String.data_append]
  simp [lookupBookmark, h1, h2, h3]

/-! ## Theorems: separators of the context menu -/

theorem noAdjacentSeparators_iff (menu : QMenu) :
    noAdjacentSeparators menu ↔ hasAdjacentSeparators menu = false := by
  induction menu with
  | nil => simp [noAdjacentSeparators, hasAdjacentSeparators]
  | cons a rest ih =>
    cases rest with
    | nil => simp [noAdjacentSeparators, hasAdjacentSeparators]
    | cons b rest =>
      simp only [noAdjacentSeparators, List.chain'_cons] at ih ⊢
      rw [ih]
      simp [hasAdjacentSeparators]

theorem wellSeparated_iff (menu : QMenu) :
    wellSeparated menu ↔
      (menu = [] ∨ (menu.head? ≠ some MenuEntry.separator ∧
        hasAdjacentSeparators menu = false ∧ menu.getLast? = some MenuEntry.separator)) := by
  simp only [wellSeparated, noAdjacentSeparators_iff]

theorem wellSeparated_append (a b : QMenu) (ha : wellSeparated a) (hb : wellSeparated b) :
    wellSeparated (a ++ b) := by
  rcases ha with rfl | ⟨ha1, ha2, ha3⟩
  · simpa using hb
  rcases hb with rfl | ⟨hb1, hb2, hb3⟩
  · rw [List.append_nil]; exact Or.inr ⟨ha1, ha2, ha3⟩
  right
  refine ⟨?_, ?_, ?_⟩
  · cases a with
    | nil => simp at ha3
    | cons x rest => simpa using ha1
  · refine List.Chain'.append ha2 hb2 ?_
    intro x hx y hy hxy
    rw [hxy.2] at hy
    exact hb1 hy
  · rw [List.getLast?_append, hb3]; rfl

theorem wellSeparated_ite (b : Bool) (menu : QMenu) (h : wellSeparated menu) :
    wellSeparated (if b = true then menu else []) := by
  cases b
  · exact Or.inl rfl
  · exact h

theorem editSection_wellSeparated (F : MenuFlagValues) (flags : Nat) :
    wellSeparated (editSection F flags) := by
  rw [wellSeparated_iff]
  simp only [editSection, editBlock]
  split_ifs <;> decide

theorem selectionSection_wellSeparated (F : MenuFlagValues) (flags : Nat) :
    wellSeparated (selectionSection F flags) := by
  rw [wellSeparated_iff]
  simp only [selectionSection, selectionBlock]
  split_ifs <;> decide

theorem linkPart_wellSeparated (F : MenuFlagValues) (flags : Nat) :
    wellSeparated
      (remaining (if testFlag flags F.MailMenu then mailSection F flags
          else if testFlag flags F.LinkMenu then linkSection F flags else [])
        ((if testFlag flags F.ImageMenu then imageSection else []) ++
         (if testFlag flags F.MediaMenu then mediaSection else []))) := by
  rw [wellSeparated_iff]
  simp only [mailSection, mailBlock, linkSection, linkBlock]
  cases testFlag flags F.MailMenu <;> cases testFlag flags F.LinkMenu <;>
    cases testFlag flags F.ImageMenu <;> cases testFlag flags F.MediaMenu <;> decide

theorem imagePart_wellSeparated (F : MenuFlagValues) (flags : Nat) :
    wellSeparated
      (remaining (if testFlag flags F.ImageMenu then imageSection else [])
        (if testFlag flags F.MediaMenu then mediaSection else [])) := by
  rw [wellSeparated_iff]
  cases testFlag flags F.ImageMenu <;> cases testFlag flags F.MediaMenu <;> decide

theorem contextSections_wellSeparated (F : MenuFlagValues) (flags : Nat)
    (hS : testFlag flags F.StandardMenu = false) : wellSeparated (showContextMenu F flags) := by
  rw [showContextMenu_sections F flags hS]
  refine wellSeparated_append _ _ (wellSeparated_append _ _ (wellSeparated_append _ _
    (wellSeparated_append _ _ ?_ ?_) ?_) ?_) ?_
  · exact wellSeparated_ite _ _ (editSection_wellSeparated F flags)
  · exact wellSeparated_ite _ _ (selectionSection_wellSeparated F flags)
  · exact linkPart_wellSeparated F flags
  · exact imagePart_wellSeparated F flags
  · exact wellSeparated_ite _ _ ((wellSeparated_iff _).mpr (by decide))

theorem standardMenu_separators (F : MenuFlagValues) (flags : Nat) :
    (standardBlock F flags []).head? ≠ some MenuEntry.separator ∧
    noAdjacentSeparators (standardBlock F flags []) ∧
    (standardBlock F flags []).getLast? = some (MenuEntry.action Action.FullScreenAction) := by
  rw [noAdjacentSeparators_iff]
  simp only [standardBlock]
  cases testFlag flags F.FormMenu <;> cases testFlag flags F.FrameMenu <;> decide

/-- C12: for every flags value the top-level menu does not start with a separator and
has no two adjacent separators; with `StandardMenu` clear a non-empty menu ends with a
separator, and with `StandardMenu` set the menu ends with `FullScreenAction`. -/
theorem showContextMenu_separators (F : MenuFlagValues) (flags : Nat) :
    (showContextMenu F flags).head? ≠ some MenuEntry.separator ∧
    noAdjacentSeparators (showContextMenu F flags) ∧
    (testFlag flags F.StandardMenu = false → showContextMenu F flags ≠ [] →
      (showContextMenu F flags).getLast? = some MenuEntry.separator) ∧
    (testFlag flags F.StandardMenu = true →
      (showContextMenu F flags).getLast? =
        some (MenuEntry.action Action.FullScreenAction)) := by
  cases hS : testFlag flags F.StandardMenu
  · rcases contextSections_wellSeparated F flags hS with h | ⟨h1, h2, h3⟩
    · rw [h]
      exact ⟨by simp, List.chain'_nil, fun _ hne => absurd rfl hne,
        fun hc => absurd hc (by decide)⟩
    · exact ⟨h1, h2, fun _ _ => h3, fun hc => absurd hc (by decide)⟩
  · have hmenu : showContextMenu F flags = standardBlock F flags [] := by
      simp only [showContextMenu, hS, if_true]
    rw [hmenu]
    obtain ⟨h1, h2, h3⟩ := standardMenu_separators F flags
    exact ⟨h1, h2, fun hc => absurd hc (by decide), fun _ => h3⟩

/-- Witness for C12 at `flags = SelectionMenu | ImageMenu` (32 + 8), a non-empty menu
without `StandardMenu`, and at `flags = StandardMenu` (1). -/
theorem showContextMenu_separators_witness :
    testFlag 40 menuFlagBits.StandardMenu = false ∧ showContextMenu menuFlagBits 40 ≠ [] ∧
    (showContextMenu menuFlagBits 40).getLast? = some MenuEntry.separator ∧
    testFlag 1 menuFlagBits.StandardMenu = true ∧
    (showContextMenu menuFlagBits 1).getLast? =
      some (MenuEntry.action Action.FullScreenAction) :=
  ⟨by decide, by decide,
   (showContextMenu_separators menuFlagBits 40).2.2.1 (by decide) (by decide),
   by decide, (showContextMenu_separators menuFlagBits 1).2.2.2 (by decide)⟩

/-! ## Theorems: reload time -/

/-- C13: the menu built by `getReloadTimeMenu` has 8 actions. For every reload time `t`
the index used by `reloadTimeMenuAboutToShow` is below 8, the action there is no
separator, and its data is `t` when `t` is one of 1800, 3600, 7200, 21600, 0, -1, and
-2 ("Custom...") for every other `t`; after the call an action whose data is that
value is checked, and it is the only action of the menu with that data. -/
theorem reloadTimeMenu_checks_matching_entry (t : Int) :
    getReloadTimeMenu.length = 8 ∧
    reloadTimeIndex t < getReloadTimeMenu.length ∧
    (∃ action, getReloadTimeMenu.get? (reloadTimeIndex t) = some action ∧
      action.isSeparator = false ∧
      action.data = some (if t = 1800 ∨ t = 3600 ∨ t = 7200 ∨ t = 21600 ∨ t = 0 ∨ t = -1
        then t else -2)) ∧
    (∀ action ∈ reloadTimeMenuAboutToShow getReloadTimeMenu t,
      (action.checked = true ↔
        action.data = some (if t = 1800 ∨ t = 3600 ∨ t = 7200 ∨ t = 21600 ∨ t = 0 ∨ t = -1
          then t else -2))) ∧
    (reloadTimeMenuAboutToShow getReloadTimeMenu t).map (fun action => action.data) =
      [some 1800, some 3600, some 7200, some 21600, some 0, some (-2), none, some (-1)] := by
  by_cases h1 : t = 1800
  · subst h1; decide
  by_cases h2 : t = 3600
  · subst h2; decide
  by_cases h3 : t = 7200
  · subst h3; decide
  by_cases h4 : t = 21600
  · subst h4; decide
  by_cases h5 : t = 0
  · subst h5; decide
  by_cases h6 : t = -1
  · subst h6; decide
  have hi : reloadTimeIndex t = 5 := by simp [reloadTimeIndex, h1, h2, h3, h4, h5, h6]
  have hd : (if t = 1800 ∨ t = 3600 ∨ t = 7200 ∨ t = 21600 ∨ t = 0 ∨ t = -1 then t else -2)
      = -2 := by simp [h1, h2, h3, h4, h5, h6]
  simp only [reloadTimeMenuAboutToShow, hi, hd]
  decide

/-- C14 (the code at the failing inputs): `startReloadTimer()` starts a timer without
killing the one recorded in `m_reloadTimer`. After `setReloadTime(5)` timer 1 runs;
`startReloadTimer()` then starts timer 2 and records it, so two timers run and timer 1
is recorded nowhere; after `timerEvent` for timer 2, `m_reloadTimer` is 0 while timer 1
still runs. Besides, the interval is computed in `int`: for `t = 2147484` the product
`t * 1000` does not fit, the wrapped value is negative and no timer is armed although
`t > 0`. -/
theorem startReloadTimer_leaves_old_timer_running :
    (WebWidget.initial.calls [ReloadCall.setReloadTime 5]).timers = [(1, 5000)] ∧
    (WebWidget.initial.calls [ReloadCall.setReloadTime 5]).m_reloadTimer = 1 ∧
    (WebWidget.initial.calls
      [ReloadCall.setReloadTime 5, ReloadCall.startReloadTimer]).timers =
      [(1, 5000), (2, 5000)] ∧
    (WebWidget.initial.calls
      [ReloadCall.setReloadTime 5, ReloadCall.startReloadTimer]).m_reloadTimer = 2 ∧
    (WebWidget.initial.calls
      [ReloadCall.setReloadTime 5, ReloadCall.startReloadTimer,
       ReloadCall.timerEvent 2 false]).timers = [(1, 5000)] ∧
    (WebWidget.initial.calls
      [ReloadCall.setReloadTime 5, ReloadCall.startReloadTimer,
       ReloadCall.timerEvent 2 false]).m_reloadTimer = 0 ∧
    toInt32 (2147484 * 1000) = -2147483296 ∧
    (WebWidget.initial.setReloadTime 2147484).getReloadTime = 2147484 ∧
    (WebWidget.initial.setReloadTime 2147484).timers = [] ∧
    (WebWidget.initial.setReloadTime 2147484).m_reloadTimer = 0 := by
  decide

/-- After `setReloadTime(t)` the reload time is `t`, from every state. -/
theorem getReloadTime_setReloadTime (self : WebWidget) (t : Int) :
    (self.setReloadTime t).getReloadTime = t := by
  unfold WebWidget.setReloadTime WebWidget.getReloadTime
  by_cases h : t = self.m_reloadTime
  · simp [h]
  · simp only [ne_eq, h, not_false_eq_true, if_true, WebWidget.startTimer,
      WebWidget.triggerAction, WebWidget.killTimer]
    split_ifs <;> rfl

/-- `setReloadTime` with the current value changes nothing. -/
theorem setReloadTime_same (self : WebWidget) :
    self.setReloadTime self.m_reloadTime = self := by
  simp [WebWidget.setReloadTime]

/-- Every call preserves "a recorded timer implies a positive reload time". -/
theorem reloadTimer_implies_positive_step (self : WebWidget) (c : ReloadCall)
    (h : self.m_reloadTimer ≠ 0 → self.m_reloadTime > 0) :
    (self.call c).m_reloadTimer ≠ 0 → (self.call c).m_reloadTime > 0 := by
  cases c with
  | setReloadTime time =>
    simp only [WebWidget.call, WebWidget.setReloadTime, WebWidget.startTimer,
      WebWidget.triggerAction, WebWidget.killTimer]
    split_ifs <;> simp_all
  | startReloadTimer =>
    simp only [WebWidget.call, WebWidget.startReloadTimer, WebWidget.startTimer,
      WebWidget.triggerAction]
    split_ifs <;> simp_all
  | timerEvent timerId isLoading =>
    simp only [WebWidget.call, WebWidget.timerEvent, WebWidget.triggerAction,
      WebWidget.killTimer]
    split_ifs <;> simp_all

end Otter
